import Mathlib

/-!
# Structured-data chat front end (`script.js`)

A shallow embedding of the browser script: the four module-level variables
(`selectedChatStructuredDocumentId`, `currentChatSessionMessages`,
`selectedStructuredUploadFile`, `confirmCallback`), the part of the page the script
writes to and reads back, and two traces (requests handed to `fetch`, stored
callbacks that were called).

Conventions of the embedding.

* Every function of the script becomes a function `AppState → ... → AppState`.
* An `async` function is cut at its `await`: `f_start` is the code that runs
  synchronously up to the suspension (it records the request given to `fetch`),
  `f_resume` is the code that runs when the awaited call settles and takes the outcome
  of `apiCall` as an argument (`Except.error msg` when `apiCall` throws,
  `Except.ok none` when it returns `null`, `Except.ok (some v)` for a parsed body).
  `apiCall_settle` computes that outcome from the way `fetch` settled. A function
  named after the script function without suffix is the two parts in sequence, with
  no other handler running in between.
* `Elements` records which lookups of the element cache (lines 17-65) found an
  element; the page itself is not part of the script, so it is a parameter and each
  guard `if (!elements.x) return` is kept.
* Document identifiers are strings: they are read back from `data-doc-id` attributes
  and compared with `===` to the identifiers of the fetched list (line 398), so the
  page only keeps a selection when the service uses string identifiers.
* What is only displayed and never read back (placeholders, ARIA attributes, focus,
  the value of the file input, the predefined-question box) is left out;
  notification texts are kept as the template that produced them together with the
  template arguments.
-/

namespace BackupGroq

/-! ## Data model -/

/-- The two fields of a browser `File` that the script reads. -/
structure File where
  name : String
  size : Nat
  deriving DecidableEq, Repr

/-- The `sender` argument of `addMessageToChatUI`: `'user'` or `'assistant'`. -/
inductive Sender where
  | user
  | assistant
  deriving DecidableEq, Repr

/-- An entry of `currentChatSessionMessages` (line 571). -/
structure ChatMessage where
  content : String
  sender : Sender
  timestamp : String
  deriving DecidableEq, Repr

/-- An entry of the list answered by `GET /structured-documents`. -/
structure Doc where
  id : String
  filename : String
  upload_date : String
  row_count : Nat
  deriving DecidableEq, Repr

/-- The body answered by `POST /upload-structured-data`. -/
structure UploadData where
  id : String
  filename : String
  row_count : Nat
  deriving DecidableEq, Repr

/-- The body answered by `POST /chat`. -/
structure ChatResponse where
  response : String
  next_action : Option String
  deriving DecidableEq, Repr

/-- The body answered by `DELETE /structured-documents/<id>`. -/
structure DeleteResponse where
  message : Option String
  deriving DecidableEq, Repr

/-- The keys of `elements.contentSections` and `elements.navLinks`. -/
inductive SectionName where
  | uploadStructured
  | structuredDocuments
  | chat
  | history
  | faq
  deriving DecidableEq, Repr

/-- The closures that the script passes to `showModal`, as data: the one built at
lines 329-332 (it captures the upload response) and the one built at lines 752-771
(it captures `docId` and `filename`). -/
inductive Callback where
  | chatWithUploaded (data : UploadData)
  | deleteDocument (docId filename : String)
  deriving DecidableEq, Repr

/-- A call of `fetch` made by `apiCall` (line 162). -/
inductive Request where
  | postUploadStructuredData (file : File)
  | getStructuredDocuments
  | deleteStructuredDocument (docId : String)
  | postChat (message : String) (structured_document_id : Option String)
  | getHistory
  deriving DecidableEq, Repr

/-- The `type` argument of `showAlert`. -/
inductive AlertType where
  | info
  | error
  | success
  deriving DecidableEq, Repr

/-- The message templates given to `showAlert`, with their arguments. -/
inductive AlertText where
  | fileTooLarge (name : String) (size : Nat)
  | unsupportedType (name : String)
  | noFileToUpload
  | uploadSucceeded (filename : String)
  | uploadFailed (reason : String)
  | loadDocumentsFailed (reason : String)
  | loadChatDocumentsFailed (reason : String)
  | documentSelected (filename : String)
  | selectDocumentFirst
  | typeYourQuestion
  | internetSearchNext
  | chatFailed (reason : String)
  | loadHistoryFailed (reason : String)
  | serverMessage (message : String)
  | deleteSucceeded (filename : String)
  | deleteFailed (filename reason : String)
  deriving DecidableEq, Repr

/-- A notification appended to the alert container. -/
structure Alert where
  text : AlertText
  type : AlertType
  deriving DecidableEq, Repr

/-- The message templates given to `showModal`. -/
inductive ModalMessage where
  | uploadFinished (filename : String) (row_count : Nat)
  | confirmDelete (filename : String)
  deriving DecidableEq, Repr

/-- The properties of a button that `setButtonLoading` touches. -/
structure Button where
  disabled : Bool
  innerHTML : String
  originalText : Option String
  deriving DecidableEq, Repr

/-- A child of the chat message container: the welcome block or a rendered message. -/
inductive ChatNode where
  | welcome
  | message (content : String) (sender : Sender) (timestamp : String)
  deriving DecidableEq, Repr

/-- A `.chat-document-item` of the chat sidebar. -/
structure ChatDocumentItem where
  docId : String
  docFilename : String
  selected : Bool
  deriving DecidableEq, Repr

/-- An entry of the `history` list answered by `GET /history`; the document identifier
and the turn number are optional. -/
structure HistoryItem where
  message : String
  response : String
  timestamp : String
  excel_document_id : Option String
  chat_turn : Option Int
  deriving DecidableEq, Repr

/-- The body answered by `GET /history`. -/
structure HistoryData where
  history : Option (List HistoryItem)
  deriving DecidableEq, Repr

/-- A `.history-item` of the history container, with the texts it shows. -/
structure HistoryNode where
  message : String
  response : String
  context : String
  timestamp : String
  deriving DecidableEq, Repr

/-- Which lookups of the element cache (lines 17-65) returned an element. -/
structure Elements where
  loadingOverlay : Bool
  alertContainer : Bool
  confirmationModal : Bool
  structuredFileListDisplay : Bool
  uploadStructuredBtn : Bool
  structuredDocumentsContainer : Bool
  chatStructuredDocumentList : Bool
  chatMessagesContainer : Bool
  chatInput : Bool
  chatSendBtn : Bool
  historyContainer : Bool
  contentSections : SectionName → Bool
  navLinks : SectionName → Bool

/-- The state of the page: script variables, the page, and the two traces. -/
structure AppState where
  selectedChatStructuredDocumentId : Option String
  currentChatSessionMessages : List ChatMessage
  selectedStructuredUploadFile : Option File
  confirmCallback : Option Callback
  elements : Elements
  loadingShown : Bool
  alerts : List Alert
  modalActive : Bool
  modalTitle : String
  modalMessage : Option ModalMessage
  uploadStructuredBtn : Button
  structuredDocumentCards : List Doc
  chatSendBtn : Button
  chatInputDisabled : Bool
  chatInputValue : String
  chatMessagesContainer : List ChatNode
  chatDocumentItems : List ChatDocumentItem
  historyContainer : List HistoryNode
  activeSections : SectionName → Bool
  activeNavLinks : SectionName → Bool
  requests : List Request
  invokedCallbacks : List Callback

/-- A page on which every element of the cache exists. -/
def fullPage : Elements :=
  { loadingOverlay := true, alertContainer := true, confirmationModal := true,
    structuredFileListDisplay := true,
    uploadStructuredBtn := true, structuredDocumentsContainer := true,
    chatStructuredDocumentList := true, chatMessagesContainer := true,
    chatInput := true, chatSendBtn := true, historyContainer := true,
    contentSections := fun _ => true, navLinks := fun _ => true }

/-- The state right after the script is loaded (lines 11-14) on a page that has every
element, before any handler has run. The first properties of the elements come from
the markup, which is not part of the script: here both buttons and the chat input
start disabled, the chat shows the welcome block and no panel is active. -/
def initialState : AppState :=
  { selectedChatStructuredDocumentId := none
    currentChatSessionMessages := []
    selectedStructuredUploadFile := none
    confirmCallback := none
    elements := fullPage
    loadingShown := false
    alerts := []
    modalActive := false
    modalTitle := ""
    modalMessage := none
    uploadStructuredBtn := { disabled := true, innerHTML := "Unggah Data", originalText := none }
    structuredDocumentCards := []
    chatSendBtn := { disabled := true, innerHTML := "Kirim", originalText := none }
    chatInputDisabled := true
    chatInputValue := ""
    chatMessagesContainer := [ChatNode.welcome]
    chatDocumentItems := []
    historyContainer := []
    activeSections := fun _ => false
    activeNavLinks := fun _ => false
    requests := []
    invokedCallbacks := [] }

/-! ## Constants (lines 7-9) -/

def MAX_STRUCTURED_FILE_SIZE_MB : Nat := 10

def MAX_STRUCTURED_FILE_SIZE_BYTES : Nat := MAX_STRUCTURED_FILE_SIZE_MB * 1024 * 1024

/-! ## Utility functions (lines 68-148) -/

/-- Lines 68-72, `showLoading(show = true)`. -/
def showLoading (s : AppState) : AppState :=
  if s.elements.loadingOverlay then { s with loadingShown := true } else s

/-- Lines 74-78. -/
def hideLoading (s : AppState) : AppState :=
  if s.elements.loadingOverlay then { s with loadingShown := false } else s

/-- Lines 80-91: without an alert container nothing is shown; otherwise the
notification is appended. Its later removal by timer is not modelled, `alerts` is the
record of what was shown. -/
def showAlert (s : AppState) (text : AlertText) (type : AlertType) : AppState :=
  if s.elements.alertContainer then { s with alerts := s.alerts ++ [⟨text, type⟩] } else s

/-- Lines 93-101. -/
def showModal (s : AppState) (title : String) (message : ModalMessage)
    (onConfirm : Callback) : AppState :=
  if s.elements.confirmationModal then
    { s with modalTitle := title, modalMessage := some message, modalActive := true,
             confirmCallback := some onConfirm }
  else s

/-- Lines 103-109. -/
def closeModal (s : AppState) : AppState :=
  if s.elements.confirmationModal then
    { s with modalActive := false, confirmCallback := none }
  else s

/-- JavaScript truthiness of a string-or-undefined value: undefined and the empty
string are falsy. -/
def truthy (v : Option String) : Bool :=
  match v with
  | none => false
  | some x => x != ""

/-- Lines 123-135, on a button that exists. -/
def Button.setLoading (b : Button) (isLoading : Bool) (originalText : String) : Button :=
  if isLoading then
    { disabled := true,
      innerHTML := "<span class=\"loading-spinner-btn\"></span> Memproses...",
      originalText := if truthy b.originalText then b.originalText else some b.innerHTML }
  else
    { b with disabled := false,
             innerHTML := if truthy b.originalText then b.originalText.getD "" else originalText }

/-- Lines 123-135 applied to `elements.uploadStructuredBtn`. -/
def setButtonLoading_uploadStructuredBtn (s : AppState) (isLoading : Bool)
    (originalText : String) : AppState :=
  if s.elements.uploadStructuredBtn then
    { s with uploadStructuredBtn := s.uploadStructuredBtn.setLoading isLoading originalText }
  else s

/-- Lines 123-135 applied to `elements.chatSendBtn`. -/
def setButtonLoading_chatSendBtn (s : AppState) (isLoading : Bool)
    (originalText : String) : AppState :=
  if s.elements.chatSendBtn then
    { s with chatSendBtn := s.chatSendBtn.setLoading isLoading originalText }
  else s

/-- The synchronous part of `apiCall` (lines 151-162): the request is handed to
`fetch`. -/
def apiCall_start (s : AppState) (r : Request) : AppState :=
  { s with requests := s.requests ++ [r] }

/-! ## Navigation and listing (lines 198-248, 342-388) -/

/-- Lines 342-344: `loadAllStructuredDocuments` up to its `await`. -/
def loadAllStructuredDocuments_start (s : AppState) : AppState :=
  apiCall_start s Request.getStructuredDocuments

/-- Lines 355-388: the cards replace the content of the container, when it exists. -/
def renderStructuredDocumentList (s : AppState) (documents : List Doc) : AppState :=
  if s.elements.structuredDocumentsContainer then
    { s with structuredDocumentCards := documents }
  else s

/-- Lines 345-351: `loadAllStructuredDocuments` after `apiCall` settled. -/
def loadAllStructuredDocuments_resume (s : AppState)
    (result : Except String (Option (List Doc))) : AppState :=
  match result with
  | .ok data => renderStructuredDocumentList s (data.getD [])
  | .error message =>
    let s1 := showAlert s (AlertText.loadDocumentsFailed message) AlertType.error
    if s1.elements.structuredDocumentsContainer then
      { s1 with structuredDocumentCards := [] }
    else s1

/-- Lines 391-394: `loadStructuredDocumentsForChat` up to its `await`. -/
def loadStructuredDocumentsForChat_start (s : AppState) : AppState :=
  apiCall_start s Request.getStructuredDocuments

/-- Lines 595-597: `loadAllChatHistory` up to its `await`. -/
def loadAllChatHistory_start (s : AppState) : AppState :=
  apiCall_start s Request.getHistory

/-- Lines 199-215 of `navigateToSection`: the `active` class is removed from every
panel and link that exists and added to the requested ones. -/
def navigateToSection_classes (s : AppState) (sectionName : SectionName) : AppState :=
  let s1 := { s with
    activeSections := fun x => if s.elements.contentSections x then false else s.activeSections x,
    activeNavLinks := fun x => if s.elements.navLinks x then false else s.activeNavLinks x }
  let s2 := if s1.elements.contentSections sectionName then
      { s1 with activeSections := fun x => if x = sectionName then true else s1.activeSections x }
    else s1
  if s2.elements.navLinks sectionName then
    { s2 with activeNavLinks := fun x => if x = sectionName then true else s2.activeNavLinks x }
  else s2

/-- Lines 198-248, `navigateToSection`, up to the suspension of the load routine it
starts. For the two sections without a load routine the promise is already resolved
and `hideLoading` runs before any other handler, so it is applied here. For the other
three `hideLoading` runs when the load routine has finished (`navigateToSection_settled`). -/
def navigateToSection (s : AppState) (sectionName : SectionName) : AppState :=
  let s4 := showLoading (navigateToSection_classes s sectionName)
  match sectionName with
  | .uploadStructured => hideLoading s4
  | .structuredDocuments => loadAllStructuredDocuments_start s4
  | .chat => loadStructuredDocumentsForChat_start s4
  | .history => loadAllChatHistory_start s4
  | .faq => hideLoading s4

/-- Lines 239-244: the `finally` attached to the load promise. -/
def navigateToSection_settled (s : AppState) : AppState :=
  hideLoading s

/-! ## Chat (lines 391-592) -/

/-- Lines 547-573, `addMessageToChatUI(content, sender, timestamp, isNew)`. -/
def addMessageToChatUI (s : AppState) (content : String) (sender : Sender)
    (timestamp : String) (isNew : Bool) : AppState :=
  if s.elements.chatMessagesContainer then
    let nodes := if isNew then s.chatMessagesContainer.erase ChatNode.welcome
      else s.chatMessagesContainer
    let s1 := { s with chatMessagesContainer := nodes ++ [ChatNode.message content sender timestamp] }
    if isNew then
      { s1 with currentChatSessionMessages :=
          s1.currentChatSessionMessages ++ [⟨content, sender, timestamp⟩] }
    else s1
  else s

/-- Lines 575-592, `renderChatMessageHistoryUI`: the container is emptied and then
holds the welcome block (empty transcript) or one node per transcript entry, each added
by `addMessageToChatUI(..., false)`. -/
def renderChatMessageHistoryUI (s : AppState) : AppState :=
  if s.elements.chatMessagesContainer then
    let s1 := { s with chatMessagesContainer := [] }
    if s1.currentChatSessionMessages.length = 0 then
      { s1 with chatMessagesContainer := [ChatNode.welcome] }
    else
      s1.currentChatSessionMessages.foldl
        (fun acc msg => addMessageToChatUI acc msg.content msg.sender msg.timestamp false) s1
  else s

/-- Lines 473-489, `resetChatUI`. -/
def resetChatUI (s : AppState) : AppState :=
  let s1 := { s with selectedChatStructuredDocumentId := none, currentChatSessionMessages := [] }
  let s2 := if s1.elements.chatInput then { s1 with chatInputDisabled := true } else s1
  let s3 := if s2.elements.chatSendBtn then
      { s2 with chatSendBtn := { s2.chatSendBtn with disabled := true } }
    else s2
  let s4 := { s3 with chatDocumentItems :=
    s3.chatDocumentItems.map (fun item => { item with selected := false }) }
  renderChatMessageHistoryUI s4

/-- Lines 456-460 and 400-404: every sidebar item is marked selected exactly when its
`data-doc-id` is the given identifier. -/
def markSelectedItem (s : AppState) (docId : Option String) : AppState :=
  { s with chatDocumentItems :=
      s.chatDocumentItems.map (fun item => { item with selected := (some item.docId == docId) }) }

/-- Lines 424-442, `renderChatDocumentSelectionList`: `none` stands for the
`TypeError` raised by `containerElement.innerHTML = ...` when the container is
missing. -/
def renderChatDocumentSelectionList (s : AppState) (documents : List Doc) : Option AppState :=
  if s.elements.chatStructuredDocumentList then
    some { s with chatDocumentItems := documents.map (fun doc => ⟨doc.id, doc.filename, false⟩) }
  else none

/-- The text of a `TypeError`; the wording depends on the browser. -/
def typeErrorMessage : String := "TypeError"

/-- Lines 415-418: the `catch` block of `loadStructuredDocumentsForChat`. -/
def loadStructuredDocumentsForChat_catch (s : AppState) (message : String) : AppState :=
  let s1 := showAlert s (AlertText.loadChatDocumentsFailed message) AlertType.error
  let s2 := if s1.elements.chatStructuredDocumentList then { s1 with chatDocumentItems := [] }
    else s1
  resetChatUI s2

/-- Lines 395-422: `loadStructuredDocumentsForChat` after `apiCall` settled. -/
def loadStructuredDocumentsForChat_resume (s : AppState)
    (result : Except String (Option (List Doc))) : AppState :=
  match result with
  | .ok structuredData =>
    match renderChatDocumentSelectionList s (structuredData.getD []) with
    | none => loadStructuredDocumentsForChat_catch s typeErrorMessage
    | some s1 =>
      if truthy s1.selectedChatStructuredDocumentId then
        let stillExists := (structuredData.getD []).any
          (fun doc => some doc.id == s1.selectedChatStructuredDocumentId)
        if stillExists then
          markSelectedItem s1 s1.selectedChatStructuredDocumentId
        else
          resetChatUI { s1 with selectedChatStructuredDocumentId := none }
      else
        resetChatUI s1
  | .error message => loadStructuredDocumentsForChat_catch s message

/-- Lines 444-471, `activateChatWithDocument(docId, docFilename, docType)`; the call
ends in `navigateToSection` and so leaves the chat list request in flight. -/
def activateChatWithDocument (s : AppState) (docId docFilename : String)
    (_docType : String) : AppState :=
  let s1 := if s.selectedChatStructuredDocumentId ≠ some docId then
      let a := { s with selectedChatStructuredDocumentId := some docId,
                        currentChatSessionMessages := [] }
      let b := renderChatMessageHistoryUI a
      showAlert b (AlertText.documentSelected docFilename) AlertType.info
    else s
  let s2 := markSelectedItem s1 (some docId)
  let s3 := if s2.elements.chatInput then { s2 with chatInputDisabled := false } else s2
  let s4 := if s3.elements.chatSendBtn then
      { s3 with chatSendBtn := { s3.chatSendBtn with disabled := false } }
    else s3
  navigateToSection s4 SectionName.chat

/-- The code points removed by `String.prototype.trim`: the ECMAScript `WhiteSpace`
and `LineTerminator` productions. -/
def isJsWhiteSpace (c : Char) : Bool :=
  let n := c.toNat
  n == 0x09 || n == 0x0A || n == 0x0B || n == 0x0C || n == 0x0D || n == 0x20 ||
  n == 0xA0 || n == 0x1680 || (0x2000 ≤ n && n ≤ 0x200A) || n == 0x2028 || n == 0x2029 ||
  n == 0x202F || n == 0x205F || n == 0x3000 || n == 0xFEFF

/-- `String.prototype.trim`. -/
def jsTrim (str : String) : String :=
  String.mk ((str.toList.dropWhile isJsWhiteSpace).reverse.dropWhile isJsWhiteSpace).reverse

/-- The text of the synthetic assistant entry (line 536). -/
def chatInternalErrorText : String :=
  "Maaf, terjadi kesalahan internal saat memproses pertanyaan Anda."

/-- Lines 491-521, `submitChatMessage(messageContent)` up to the `await` of the
`/chat` call; `now` is the value of `new Date().toISOString()` at line 505. -/
def submitChatMessage_start (s : AppState) (messageContent : String) (now : String) : AppState :=
  if !truthy s.selectedChatStructuredDocumentId then
    showAlert s AlertText.selectDocumentFirst AlertType.error
  else if jsTrim messageContent == "" then
    showAlert s AlertText.typeYourQuestion AlertType.info
  else
    let s1 := addMessageToChatUI s messageContent Sender.user now true
    let s2 := if s1.elements.chatInput then { s1 with chatInputValue := "" } else s1
    let s3 := setButtonLoading_chatSendBtn s2 true "Kirim"
    let s4 := if s3.elements.chatInput then { s3 with chatInputDisabled := true } else s3
    apiCall_start s4 (Request.postChat messageContent s4.selectedChatStructuredDocumentId)

/-- Lines 533-536: the `catch` block of the chat turn. -/
def submitChatMessage_catch (s : AppState) (message : String) (now : String) : AppState :=
  let s1 := showAlert s (AlertText.chatFailed message) AlertType.error
  addMessageToChatUI s1 chatInternalErrorText Sender.assistant now true

/-- Lines 522-543: the chat turn after `apiCall` settled; `now` is the value of
`new Date().toISOString()` at that moment. -/
def submitChatMessage_resume (s : AppState) (result : Except String (Option ChatResponse))
    (now : String) : AppState :=
  let s1 := match result with
    | .ok (some responseData) =>
      let a := addMessageToChatUI s responseData.response Sender.assistant now true
      if truthy a.selectedChatStructuredDocumentId
          && responseData.next_action == some "search_internet" then
        showAlert a AlertText.internetSearchNext AlertType.info
      else a
    | .ok none => submitChatMessage_catch s typeErrorMessage now
    | .error message => submitChatMessage_catch s message now
  let s2 := setButtonLoading_chatSendBtn s1 false "Kirim"
  if s2.elements.chatInput then { s2 with chatInputDisabled := false } else s2

/-! ## Upload flow (lines 251-340) -/

/-- The list `str.split(".")`, on the characters of `str`. -/
def splitOnDot : List Char → List (List Char)
  | [] => [[]]
  | c :: cs =>
    match splitOnDot cs with
    | [] => [[]]
    | seg :: rest => if c = '.' then [] :: seg :: rest else (c :: seg) :: rest

/-- Line 264, `file.name.split(".").pop().toLowerCase()`. `toLowerCase` is modelled by
the ASCII lowering of every character; the two agree on whether the result is one of
`xlsx`, `xls`, `csv`, since no character outside ASCII lowers to one of the letters
of these words. -/
def fileExtension (name : String) : String :=
  String.mk (((splitOnDot name.toList).getLast?.getD []).map Char.toLower)

/-- Line 263. -/
def allowedExtensions : List String := ["xlsx", "xls", "csv"]

/-- Lines 276-300, `updateSelectedStructuredFilesUI`. -/
def updateSelectedStructuredFilesUI (s : AppState) : AppState :=
  if s.elements.structuredFileListDisplay then
    match s.selectedStructuredUploadFile with
    | none =>
      if s.elements.uploadStructuredBtn then
        { s with uploadStructuredBtn := { s.uploadStructuredBtn with disabled := true } }
      else s
    | some _ =>
      if s.elements.uploadStructuredBtn then
        { s with uploadStructuredBtn := { s.uploadStructuredBtn with disabled := false } }
      else s
  else s

/-- Lines 251-274, `handleStructuredFileSelection(eventFiles)`. -/
def handleStructuredFileSelection (s : AppState) (eventFiles : List File) : AppState :=
  match eventFiles with
  | [] => updateSelectedStructuredFilesUI { s with selectedStructuredUploadFile := none }
  | file :: _ =>
    let s1 :=
      if file.size > MAX_STRUCTURED_FILE_SIZE_BYTES then
        { showAlert s (AlertText.fileTooLarge file.name file.size) AlertType.error with
          selectedStructuredUploadFile := none }
      else if !allowedExtensions.contains (fileExtension file.name) then
        { showAlert s (AlertText.unsupportedType file.name) AlertType.error with
          selectedStructuredUploadFile := none }
      else
        { s with selectedStructuredUploadFile := some file }
    let s2 := updateSelectedStructuredFilesUI s1
    if s2.elements.uploadStructuredBtn then
      { s2 with uploadStructuredBtn :=
          { s2.uploadStructuredBtn with disabled := !s2.selectedStructuredUploadFile.isSome } }
    else s2

/-- Lines 302-306, `removeStructuredFileFromSelection`. -/
def removeStructuredFileFromSelection (s : AppState) : AppState :=
  updateSelectedStructuredFilesUI { s with selectedStructuredUploadFile := none }

/-- Lines 308-319: `performUploadStructuredDocument` up to the `await` of the upload
call, or to its early return when no file is pending. -/
def performUploadStructuredDocument_start (s : AppState) : AppState :=
  match s.selectedStructuredUploadFile with
  | none => showAlert s AlertText.noFileToUpload AlertType.info
  | some file =>
    apiCall_start (setButtonLoading_uploadStructuredBtn s true "Unggah Data")
      (Request.postUploadStructuredData file)

/-- Lines 319-339: `performUploadStructuredDocument` after the upload call settled. A
`null` body makes `data.filename` raise a `TypeError`, which the `catch` block
handles like a failed call. -/
def performUploadStructuredDocument_resume (s : AppState)
    (result : Except String (Option UploadData)) : AppState :=
  let s1 := match result with
    | .ok (some data) =>
      let a := showAlert s (AlertText.uploadSucceeded data.filename) AlertType.success
      let b := { a with selectedStructuredUploadFile := none }
      let c := updateSelectedStructuredFilesUI b
      showModal c "Unggah Selesai" (ModalMessage.uploadFinished data.filename data.row_count)
        (Callback.chatWithUploaded data)
    | .ok none => showAlert s (AlertText.uploadFailed typeErrorMessage) AlertType.error
    | .error message => showAlert s (AlertText.uploadFailed message) AlertType.error
  setButtonLoading_uploadStructuredBtn s1 false "Unggah Data"

/-- Lines 308-340 with no other handler running while the upload call is pending. -/
def performUploadStructuredDocument (s : AppState)
    (result : Except String (Option UploadData)) : AppState :=
  match s.selectedStructuredUploadFile with
  | none => performUploadStructuredDocument_start s
  | some _ => performUploadStructuredDocument_resume (performUploadStructuredDocument_start s) result

/-! ## Confirmation dialog and deletion (lines 737-773) -/

/-- Lines 748-773, `confirmDeleteStructuredDocument(docId, filename)`: only opens the
dialog. -/
def confirmDeleteStructuredDocument (s : AppState) (docId filename : String) : AppState :=
  showModal s "Hapus Data" (ModalMessage.confirmDelete filename)
    (Callback.deleteDocument docId filename)

/-- The synchronous part of a stored callback: lines 330-331 for the one stored after
an upload, lines 753-756 up to the `await` of the `DELETE` call for the one stored by
`confirmDeleteStructuredDocument`. -/
def Callback.run (s : AppState) : Callback → AppState
  | .chatWithUploaded data =>
    navigateToSection { s with selectedChatStructuredDocumentId := some data.id } SectionName.chat
  | .deleteDocument docId _ =>
    apiCall_start (showLoading s) (Request.deleteStructuredDocument docId)

/-- Lines 737-740: the click handler of the confirm button. `invokedCallbacks` records
the call of line 738. -/
def modalConfirmClick (s : AppState) : AppState :=
  match s.confirmCallback with
  | some callback =>
    closeModal (callback.run { s with invokedCallbacks := s.invokedCallbacks ++ [callback] })
  | none => closeModal s

/-- Line 741: the click handler of the cancel button. -/
def modalCancelClick (s : AppState) : AppState :=
  closeModal s

/-- Lines 742-744: a click that reaches the modal element; `onBackdrop` says whether
its target is the modal element itself, that is, a point outside the dialog box. -/
def modalElementClick (s : AppState) (onBackdrop : Bool) : AppState :=
  if onBackdrop then closeModal s else s

/-- Lines 756-760 and 766-770: the delete callback after the `DELETE` call settled.
After a success it suspends again in `loadAllStructuredDocuments`. -/
def deleteDocument_afterDelete (s : AppState) (filename : String)
    (result : Except String (Option DeleteResponse)) : AppState :=
  match result with
  | .ok (some response) =>
    let text := if truthy response.message then AlertText.serverMessage (response.message.getD "")
      else AlertText.deleteSucceeded filename
    loadAllStructuredDocuments_start (showAlert s text AlertType.success)
  | .ok none => hideLoading (showAlert s (AlertText.deleteFailed filename typeErrorMessage) AlertType.error)
  | .error message => hideLoading (showAlert s (AlertText.deleteFailed filename message) AlertType.error)

/-- Lines 760-770: the delete callback after the list refresh settled. -/
def deleteDocument_afterRefresh (s : AppState) (docId : String)
    (listResult : Except String (Option (List Doc))) : AppState :=
  let s1 := loadAllStructuredDocuments_resume s listResult
  let s2 := if s1.selectedChatStructuredDocumentId = some docId then resetChatUI s1 else s1
  hideLoading s2

/-- A confirmed deletion from the click on the delete button to the end of the
callback, with no other handler running in between: the dialog is opened, the confirm
button is clicked, the `DELETE` call settles and, after a success, the list refresh
settles. -/
def confirmedDeletion (s : AppState) (docId filename : String)
    (result : Except String (Option DeleteResponse))
    (listResult : Except String (Option (List Doc))) : AppState :=
  let s1 := modalConfirmClick (confirmDeleteStructuredDocument s docId filename)
  let s2 := deleteDocument_afterDelete s1 filename result
  match result with
  | .ok (some _) => deleteDocument_afterRefresh s2 docId listResult
  | _ => s2

/-- A sequence of `showModal` calls, each given by its three arguments, in order. -/
def showModals (s : AppState) (calls : List (String × ModalMessage × Callback)) : AppState :=
  calls.foldl (fun acc call => showModal acc call.1 call.2.1 call.2.2) s

/-! ## The API client after `fetch` settled (lines 162-179) -/

/-- What `response.json()` gives: it rejects when the body is not JSON, it gives `null`
for the JSON value `null`, and for any other JSON value the caller reads the typed body
`v` and `apiCall` reads the property `detail` (absent for a value without it). -/
inductive ParsedBody (α : Type) where
  | unparseable (message : String)
  | null
  | value (v : α) (detail : Option String)

/-- The parts of a `Response` that `apiCall` reads. -/
structure HttpResponse (α : Type) where
  status : Nat
  statusText : String
  contentLength : Option String
  body : ParsedBody α

/-- The `ok` property of a `Response`: the status is in the range 200-299. -/
def HttpResponse.ok {α : Type} (response : HttpResponse α) : Bool :=
  decide (200 ≤ response.status) && decide (response.status ≤ 299)

/-- How `fetch` settles: it rejects with an error (no answer from the network) or
resolves with a response. -/
inductive FetchOutcome (α : Type) where
  | rejected (message : String)
  | resolved (response : HttpResponse α)

/-- The text used by line 178 when the caught error has no message. -/
def connectionFailedText : String :=
  "Gagal terhubung ke server. Periksa koneksi Anda."

/-- Lines 176-179: the outer `catch` of `apiCall` throws a new error with the message
of the caught one, or with the fixed text when that message is empty. -/
def apiCall_catch {α : Type} (message : String) : Except String (Option α) :=
  .error (if message != "" then message else connectionFailedText)

/-- Lines 163-171: the message of the error thrown for a response that is not `ok`.
A body that is not JSON is replaced by an object whose `detail` names the status; a
`null` body makes `errorData.detail` raise a `TypeError`. -/
def apiCall_errorMessage {α : Type} (response : HttpResponse α) : String :=
  match response.body with
  | .unparseable _ =>
    let detail := "Server error: " ++ toString response.status ++ " " ++ response.statusText ++ "."
    if truthy (some detail) then detail else "HTTP error " ++ toString response.status
  | .null => typeErrorMessage
  | .value _ detail =>
    if truthy detail then detail.getD "" else "HTTP error " ++ toString response.status

/-- Lines 162-179: `apiCall` after `fetch` settled. `Except.error message` is the error
thrown to the caller, `Except.ok none` the value `null`. -/
def apiCall_settle {α : Type} (outcome : FetchOutcome α) : Except String (Option α) :=
  match outcome with
  | .rejected message => apiCall_catch message
  | .resolved response =>
    if !response.ok then
      apiCall_catch (apiCall_errorMessage response)
    else if response.status == 204 || response.contentLength == some "0" then
      .ok none
    else
      match response.body with
      | .unparseable message => apiCall_catch message
      | .null => .ok none
      | .value v _ => .ok (some v)

/-! ## Chat turns and list refresh as a whole, history (lines 137-142, 595-639) -/

/-- Lines 391-422 with no other handler running while the list call is pending. -/
def loadStructuredDocumentsForChat (s : AppState)
    (result : Except String (Option (List Doc))) : AppState :=
  loadStructuredDocumentsForChat_resume (loadStructuredDocumentsForChat_start s) result

/-- Lines 491-545 with no other handler running while the `/chat` call is pending:
after one of the two early returns nothing is pending and nothing more runs; otherwise
the turn ends when the call settles with `result`, at the time `later`. -/
def submitChatMessage (s : AppState) (messageContent now : String)
    (result : Except String (Option ChatResponse)) (later : String) : AppState :=
  if !truthy s.selectedChatStructuredDocumentId || jsTrim messageContent == "" then
    submitChatMessage_start s messageContent now
  else
    submitChatMessage_resume (submitChatMessage_start s messageContent now) result later

/-- The serialisation of one character of a text node, as read from `innerHTML`. -/
def escapeChar (c : Char) : List Char :=
  if c = '&' then "&amp;".toList
  else if c = '<' then "&lt;".toList
  else if c = '>' then "&gt;".toList
  else if c.toNat = 0xA0 then "&nbsp;".toList
  else [c]

/-- Lines 137-142, `sanitizeText(text)`; `none` stands for `null` and `undefined`. -/
def sanitizeText (text : Option String) : String :=
  match text with
  | none => ""
  | some str => String.mk (str.toList.map escapeChar).flatten

/-- JavaScript truthiness of an optional number: absent and zero are falsy. -/
def truthyNumber (v : Option Int) : Bool :=
  match v with
  | none => false
  | some n => n != 0

/-- Lines 619-627 of `renderChatHistoryList`: the context label of one entry. -/
def docContextInfo (item : HistoryItem) : String :=
  if truthy item.excel_document_id then
    let label := "Dok. Data ID: " ++ sanitizeText item.excel_document_id
    if truthyNumber item.chat_turn && item.chat_turn == some 1 then
      label ++ " (Pencarian Data)"
    else if truthyNumber item.chat_turn && (match item.chat_turn with
        | some n => decide (n > 1)
        | none => false) then
      label ++ " (Pencarian Internet)"
    else label
  else "Konteks Umum"

/-- Lines 608-639, `renderChatHistoryList(historyItems)`: the container, when it
exists, is emptied and gets one node per entry (none, under the empty-state text, for an
empty list). -/
def renderChatHistoryList (s : AppState) (historyItems : List HistoryItem) : AppState :=
  if s.elements.historyContainer then
    let nodes : List HistoryNode := historyItems.map
      (fun item => ⟨item.message, item.response, docContextInfo item, item.timestamp⟩)
    { s with historyContainer := nodes }
  else s

/-- Lines 600-602: the `catch` block of `loadAllChatHistory`. -/
def loadAllChatHistory_catch (s : AppState) (message : String) : AppState :=
  let s1 := showAlert s (AlertText.loadHistoryFailed message) AlertType.error
  if s1.elements.historyContainer then { s1 with historyContainer := [] } else s1

/-- Lines 597-605: `loadAllChatHistory` after `apiCall` settled. -/
def loadAllChatHistory_resume (s : AppState)
    (result : Except String (Option HistoryData)) : AppState :=
  match result with
  | .ok (some data) => renderChatHistoryList s (data.history.getD [])
  | .ok none => loadAllChatHistory_catch s typeErrorMessage
  | .error message => loadAllChatHistory_catch s message

/-- A run of the page: document `A` is chosen in the sidebar, a question is sent, and
while the `/chat` call is pending document `B` is chosen in the sidebar; then the
answer to the question arrives. -/
def lateReplyRun : AppState :=
  let docs : List Doc := [⟨"A", "a.csv", "2024-01-01", 10⟩, ⟨"B", "b.csv", "2024-01-02", 3⟩]
  let s1 := activateChatWithDocument initialState "A" "a.csv" "structured"
  let s2 := navigateToSection_settled (loadStructuredDocumentsForChat_resume s1 (.ok (some docs)))
  let s3 := submitChatMessage_start s2 "total?" "t1"
  let s4 := activateChatWithDocument s3 "B" "b.csv" "structured"
  let s5 := navigateToSection_settled (loadStructuredDocumentsForChat_resume s4 (.ok (some docs)))
  submitChatMessage_resume s5 (.ok (some ⟨"42", none⟩)) "t2"

/-! ## The wording of the specification, and two runs of the page -/

/-- The file extension as the specification words the upload check ("extension ∈
xlsx, xls, csv (case-insensitive)"): the text after the last dot of a name that has a
dot, lowered; a name without a dot has no extension. -/
def specExtension (name : String) : Option String :=
  if '.' ∈ name.toList then some (fileExtension name) else none

/-- The acceptance condition of the upload check in the words of the specification:
size at most 10 MiB and extension one of `xlsx`, `xls`, `csv`. -/
def specAccepts (file : File) : Bool :=
  decide (file.size ≤ 10 * 1024 * 1024) &&
    match specExtension file.name with
    | some extension => allowedExtensions.contains extension
    | none => false

/-- A run of the page: document `A` is chosen in the sidebar and the list refresh
answers, one question is asked and answered, then `b.csv` is uploaded, the server
answers with the new document `B`, the user confirms the dialog that offers to chat
with it and the chat list refresh answers with both documents. -/
def chatAfterUploadRun : AppState :=
  let docA : Doc := ⟨"A", "a.csv", "2024-01-01", 10⟩
  let docB : Doc := ⟨"B", "b.csv", "2024-01-02", 3⟩
  let s1 := activateChatWithDocument initialState "A" "a.csv" "structured"
  let s2 := navigateToSection_settled (loadStructuredDocumentsForChat_resume s1 (.ok (some [docA])))
  let s3 := submitChatMessage_start s2 "total?" "t1"
  let s4 := submitChatMessage_resume s3 (.ok (some ⟨"42", none⟩)) "t2"
  let s5 := navigateToSection s4 SectionName.uploadStructured
  let s6 := handleStructuredFileSelection s5 [⟨"b.csv", 100⟩]
  let s7 := performUploadStructuredDocument s6 (.ok (some ⟨"B", "b.csv", 3⟩))
  let s8 := modalConfirmClick s7
  navigateToSection_settled
    (loadStructuredDocumentsForChat_resume s8 (.ok (some [docA, docB])))

/-- A run of the page: `report.csv` (2 MiB) is chosen on the initial page and the
upload succeeds. -/
def uploadSucceededRun : AppState :=
  performUploadStructuredDocument
    (handleStructuredFileSelection initialState [⟨"report.csv", 2 * 1024 * 1024⟩])
    (.ok (some ⟨"d1", "report.csv", 120⟩))

/-- A run of the page: document `A` is chosen in the sidebar and the list refresh
answers, the question `hi` is asked and answered, the document list is opened, then the
deletion of `A` is confirmed and the service answers the `DELETE` call with status 204
and no body. The last argument is the answer a list refresh would get. -/
def deleteNoContentRun : AppState :=
  let docA : Doc := ⟨"A", "a.csv", "2024-01-01", 10⟩
  let s1 := activateChatWithDocument initialState "A" "a.csv" "structured"
  let s2 := navigateToSection_settled (loadStructuredDocumentsForChat_resume s1 (.ok (some [docA])))
  let s3 := submitChatMessage s2 "hi" "t1" (.ok (some ⟨"halo", none⟩)) "t2"
  let s4 := navigateToSection s3 SectionName.structuredDocuments
  let s5 := navigateToSection_settled (loadAllStructuredDocuments_resume s4 (.ok (some [docA])))
  confirmedDeletion s5 "A" "a.csv"
    (apiCall_settle (FetchOutcome.resolved
      ⟨204, "No Content", none, ParsedBody.unparseable "Unexpected end of JSON input"⟩))
    (.ok (some []))

/-! ## Frame lemmas

Which parts of the state each function of the script leaves alone. -/

@[simp]
theorem showLoading_selectedChatStructuredDocumentId (s : AppState) :
    (showLoading s).selectedChatStructuredDocumentId = s.selectedChatStructuredDocumentId := by unfold showLoading; split <;> rfl

@[simp]
theorem showLoading_currentChatSessionMessages (s : AppState) :
    (showLoading s).currentChatSessionMessages = s.currentChatSessionMessages := by unfold showLoading; split <;> rfl

@[simp]
theorem showLoading_selectedStructuredUploadFile (s : AppState) :
    (showLoading s).selectedStructuredUploadFile = s.selectedStructuredUploadFile := by unfold showLoading; split <;> rfl

@[simp]
theorem showLoading_confirmCallback (s : AppState) :
    (showLoading s).confirmCallback = s.confirmCallback := by unfold showLoading; split <;> rfl

@[simp]
theorem showLoading_elements (s : AppState) :
    (showLoading s).elements = s.elements := by unfold showLoading; split <;> rfl

@[simp]
theorem showLoading_alerts (s : AppState) :
    (showLoading s).alerts = s.alerts := by unfold showLoading; split <;> rfl

@[simp]
theorem showLoading_requests (s : AppState) :
    (showLoading s).requests = s.requests := by unfold showLoading; split <;> rfl

@[simp]
theorem showLoading_invokedCallbacks (s : AppState) :
    (showLoading s).invokedCallbacks = s.invokedCallbacks := by unfold showLoading; split <;> rfl

@[simp]
theorem showLoading_uploadStructuredBtn (s : AppState) :
    (showLoading s).uploadStructuredBtn = s.uploadStructuredBtn := by unfold showLoading; split <;> rfl

@[simp]
theorem hideLoading_selectedChatStructuredDocumentId (s : AppState) :
    (hideLoading s).selectedChatStructuredDocumentId = s.selectedChatStructuredDocumentId := by unfold hideLoading; split <;> rfl

@[simp]
theorem hideLoading_currentChatSessionMessages (s : AppState) :
    (hideLoading s).currentChatSessionMessages = s.currentChatSessionMessages := by unfold hideLoading; split <;> rfl

@[simp]
theorem hideLoading_selectedStructuredUploadFile (s : AppState) :
    (hideLoading s).selectedStructuredUploadFile = s.selectedStructuredUploadFile := by unfold hideLoading; split <;> rfl

@[simp]
theorem hideLoading_confirmCallback (s : AppState) :
    (hideLoading s).confirmCallback = s.confirmCallback := by unfold hideLoading; split <;> rfl

@[simp]
theorem hideLoading_elements (s : AppState) :
    (hideLoading s).elements = s.elements := by unfold hideLoading; split <;> rfl

@[simp]
theorem hideLoading_alerts (s : AppState) :
    (hideLoading s).alerts = s.alerts := by unfold hideLoading; split <;> rfl

@[simp]
theorem hideLoading_requests (s : AppState) :
    (hideLoading s).requests = s.requests := by unfold hideLoading; split <;> rfl

@[simp]
theorem hideLoading_invokedCallbacks (s : AppState) :
    (hideLoading s).invokedCallbacks = s.invokedCallbacks := by unfold hideLoading; split <;> rfl

@[simp]
theorem hideLoading_uploadStructuredBtn (s : AppState) :
    (hideLoading s).uploadStructuredBtn = s.uploadStructuredBtn := by unfold hideLoading; split <;> rfl

@[simp]
theorem showAlert_selectedChatStructuredDocumentId (s : AppState) (text : AlertText) (type : AlertType) :
    (showAlert s text type).selectedChatStructuredDocumentId = s.selectedChatStructuredDocumentId := by unfold showAlert; split <;> rfl

@[simp]
theorem showAlert_currentChatSessionMessages (s : AppState) (text : AlertText) (type : AlertType) :
    (showAlert s text type).currentChatSessionMessages = s.currentChatSessionMessages := by unfold showAlert; split <;> rfl

@[simp]
theorem showAlert_selectedStructuredUploadFile (s : AppState) (text : AlertText) (type : AlertType) :
    (showAlert s text type).selectedStructuredUploadFile = s.selectedStructuredUploadFile := by unfold showAlert; split <;> rfl

@[simp]
theorem showAlert_confirmCallback (s : AppState) (text : AlertText) (type : AlertType) :
    (showAlert s text type).confirmCallback = s.confirmCallback := by unfold showAlert; split <;> rfl

@[simp]
theorem showAlert_elements (s : AppState) (text : AlertText) (type : AlertType) :
    (showAlert s text type).elements = s.elements := by unfold showAlert; split <;> rfl

@[simp]
theorem showAlert_requests (s : AppState) (text : AlertText) (type : AlertType) :
    (showAlert s text type).requests = s.requests := by unfold showAlert; split <;> rfl

@[simp]
theorem showAlert_invokedCallbacks (s : AppState) (text : AlertText) (type : AlertType) :
    (showAlert s text type).invokedCallbacks = s.invokedCallbacks := by unfold showAlert; split <;> rfl

@[simp]
theorem showAlert_uploadStructuredBtn (s : AppState) (text : AlertText) (type : AlertType) :
    (showAlert s text type).uploadStructuredBtn = s.uploadStructuredBtn := by unfold showAlert; split <;> rfl

@[simp]
theorem showModal_selectedChatStructuredDocumentId (s : AppState) (title : String) (message : ModalMessage) (onConfirm : Callback) :
    (showModal s title message onConfirm).selectedChatStructuredDocumentId = s.selectedChatStructuredDocumentId := by unfold showModal; split <;> rfl

@[simp]
theorem showModal_currentChatSessionMessages (s : AppState) (title : String) (message : ModalMessage) (onConfirm : Callback) :
    (showModal s title message onConfirm).currentChatSessionMessages = s.currentChatSessionMessages := by unfold showModal; split <;> rfl

@[simp]
theorem showModal_selectedStructuredUploadFile (s : AppState) (title : String) (message : ModalMessage) (onConfirm : Callback) :
    (showModal s title message onConfirm).selectedStructuredUploadFile = s.selectedStructuredUploadFile := by unfold showModal; split <;> rfl

@[simp]
theorem showModal_elements (s : AppState) (title : String) (message : ModalMessage) (onConfirm : Callback) :
    (showModal s title message onConfirm).elements = s.elements := by unfold showModal; split <;> rfl

@[simp]
theorem showModal_alerts (s : AppState) (title : String) (message : ModalMessage) (onConfirm : Callback) :
    (showModal s title message onConfirm).alerts = s.alerts := by unfold showModal; split <;> rfl

@[simp]
theorem showModal_requests (s : AppState) (title : String) (message : ModalMessage) (onConfirm : Callback) :
    (showModal s title message onConfirm).requests = s.requests := by unfold showModal; split <;> rfl

@[simp]
theorem showModal_invokedCallbacks (s : AppState) (title : String) (message : ModalMessage) (onConfirm : Callback) :
    (showModal s title message onConfirm).invokedCallbacks = s.invokedCallbacks := by unfold showModal; split <;> rfl

@[simp]
theorem showModal_uploadStructuredBtn (s : AppState) (title : String) (message : ModalMessage) (onConfirm : Callback) :
    (showModal s title message onConfirm).uploadStructuredBtn = s.uploadStructuredBtn := by unfold showModal; split <;> rfl

@[simp]
theorem closeModal_selectedChatStructuredDocumentId (s : AppState) :
    (closeModal s).selectedChatStructuredDocumentId = s.selectedChatStructuredDocumentId := by unfold closeModal; split <;> rfl

@[simp]
theorem closeModal_currentChatSessionMessages (s : AppState) :
    (closeModal s).currentChatSessionMessages = s.currentChatSessionMessages := by unfold closeModal; split <;> rfl

@[simp]
theorem closeModal_selectedStructuredUploadFile (s : AppState) :
    (closeModal s).selectedStructuredUploadFile = s.selectedStructuredUploadFile := by unfold closeModal; split <;> rfl

@[simp]
theorem closeModal_elements (s : AppState) :
    (closeModal s).elements = s.elements := by unfold closeModal; split <;> rfl

@[simp]
theorem closeModal_alerts (s : AppState) :
    (closeModal s).alerts = s.alerts := by unfold closeModal; split <;> rfl

@[simp]
theorem closeModal_requests (s : AppState) :
    (closeModal s).requests = s.requests := by unfold closeModal; split <;> rfl

@[simp]
theorem closeModal_invokedCallbacks (s : AppState) :
    (closeModal s).invokedCallbacks = s.invokedCallbacks := by unfold closeModal; split <;> rfl

@[simp]
theorem closeModal_uploadStructuredBtn (s : AppState) :
    (closeModal s).uploadStructuredBtn = s.uploadStructuredBtn := by unfold closeModal; split <;> rfl

@[simp]
theorem setButtonLoading_uploadStructuredBtn_selectedChatStructuredDocumentId (s : AppState) (isLoading : Bool) (originalText : String) :
    (setButtonLoading_uploadStructuredBtn s isLoading originalText).selectedChatStructuredDocumentId = s.selectedChatStructuredDocumentId := by unfold setButtonLoading_uploadStructuredBtn; split <;> rfl

@[simp]
theorem setButtonLoading_uploadStructuredBtn_currentChatSessionMessages (s : AppState) (isLoading : Bool) (originalText : String) :
    (setButtonLoading_uploadStructuredBtn s isLoading originalText).currentChatSessionMessages = s.currentChatSessionMessages := by unfold setButtonLoading_uploadStructuredBtn; split <;> rfl

@[simp]
theorem setButtonLoading_uploadStructuredBtn_selectedStructuredUploadFile (s : AppState) (isLoading : Bool) (originalText : String) :
    (setButtonLoading_uploadStructuredBtn s isLoading originalText).selectedStructuredUploadFile = s.selectedStructuredUploadFile := by unfold setButtonLoading_uploadStructuredBtn; split <;> rfl

@[simp]
theorem setButtonLoading_uploadStructuredBtn_confirmCallback (s : AppState) (isLoading : Bool) (originalText : String) :
    (setButtonLoading_uploadStructuredBtn s isLoading originalText).confirmCallback = s.confirmCallback := by unfold setButtonLoading_uploadStructuredBtn; split <;> rfl

@[simp]
theorem setButtonLoading_uploadStructuredBtn_elements (s : AppState) (isLoading : Bool) (originalText : String) :
    (setButtonLoading_uploadStructuredBtn s isLoading originalText).elements = s.elements := by unfold setButtonLoading_uploadStructuredBtn; split <;> rfl

@[simp]
theorem setButtonLoading_uploadStructuredBtn_alerts (s : AppState) (isLoading : Bool) (originalText : String) :
    (setButtonLoading_uploadStructuredBtn s isLoading originalText).alerts = s.alerts := by unfold setButtonLoading_uploadStructuredBtn; split <;> rfl

@[simp]
theorem setButtonLoading_uploadStructuredBtn_requests (s : AppState) (isLoading : Bool) (originalText : String) :
    (setButtonLoading_uploadStructuredBtn s isLoading originalText).requests = s.requests := by unfold setButtonLoading_uploadStructuredBtn; split <;> rfl

@[simp]
theorem setButtonLoading_uploadStructuredBtn_invokedCallbacks (s : AppState) (isLoading : Bool) (originalText : String) :
    (setButtonLoading_uploadStructuredBtn s isLoading originalText).invokedCallbacks = s.invokedCallbacks := by unfold setButtonLoading_uploadStructuredBtn; split <;> rfl

@[simp]
theorem setButtonLoading_chatSendBtn_selectedChatStructuredDocumentId (s : AppState) (isLoading : Bool) (originalText : String) :
    (setButtonLoading_chatSendBtn s isLoading originalText).selectedChatStructuredDocumentId = s.selectedChatStructuredDocumentId := by unfold setButtonLoading_chatSendBtn; split <;> rfl

@[simp]
theorem setButtonLoading_chatSendBtn_currentChatSessionMessages (s : AppState) (isLoading : Bool) (originalText : String) :
    (setButtonLoading_chatSendBtn s isLoading originalText).currentChatSessionMessages = s.currentChatSessionMessages := by unfold setButtonLoading_chatSendBtn; split <;> rfl

@[simp]
theorem setButtonLoading_chatSendBtn_selectedStructuredUploadFile (s : AppState) (isLoading : Bool) (originalText : String) :
    (setButtonLoading_chatSendBtn s isLoading originalText).selectedStructuredUploadFile = s.selectedStructuredUploadFile := by unfold setButtonLoading_chatSendBtn; split <;> rfl

@[simp]
theorem setButtonLoading_chatSendBtn_confirmCallback (s : AppState) (isLoading : Bool) (originalText : String) :
    (setButtonLoading_chatSendBtn s isLoading originalText).confirmCallback = s.confirmCallback := by unfold setButtonLoading_chatSendBtn; split <;> rfl

@[simp]
theorem setButtonLoading_chatSendBtn_elements (s : AppState) (isLoading : Bool) (originalText : String) :
    (setButtonLoading_chatSendBtn s isLoading originalText).elements = s.elements := by unfold setButtonLoading_chatSendBtn; split <;> rfl

@[simp]
theorem setButtonLoading_chatSendBtn_alerts (s : AppState) (isLoading : Bool) (originalText : String) :
    (setButtonLoading_chatSendBtn s isLoading originalText).alerts = s.alerts := by unfold setButtonLoading_chatSendBtn; split <;> rfl

@[simp]
theorem setButtonLoading_chatSendBtn_requests (s : AppState) (isLoading : Bool) (originalText : String) :
    (setButtonLoading_chatSendBtn s isLoading originalText).requests = s.requests := by unfold setButtonLoading_chatSendBtn; split <;> rfl

@[simp]
theorem setButtonLoading_chatSendBtn_invokedCallbacks (s : AppState) (isLoading : Bool) (originalText : String) :
    (setButtonLoading_chatSendBtn s isLoading originalText).invokedCallbacks = s.invokedCallbacks := by unfold setButtonLoading_chatSendBtn; split <;> rfl

@[simp]
theorem setButtonLoading_chatSendBtn_uploadStructuredBtn (s : AppState) (isLoading : Bool) (originalText : String) :
    (setButtonLoading_chatSendBtn s isLoading originalText).uploadStructuredBtn = s.uploadStructuredBtn := by unfold setButtonLoading_chatSendBtn; split <;> rfl

@[simp]
theorem apiCall_start_selectedChatStructuredDocumentId (s : AppState) (r : Request) :
    (apiCall_start s r).selectedChatStructuredDocumentId = s.selectedChatStructuredDocumentId := rfl

@[simp]
theorem apiCall_start_currentChatSessionMessages (s : AppState) (r : Request) :
    (apiCall_start s r).currentChatSessionMessages = s.currentChatSessionMessages := rfl

@[simp]
theorem apiCall_start_selectedStructuredUploadFile (s : AppState) (r : Request) :
    (apiCall_start s r).selectedStructuredUploadFile = s.selectedStructuredUploadFile := rfl

@[simp]
theorem apiCall_start_confirmCallback (s : AppState) (r : Request) :
    (apiCall_start s r).confirmCallback = s.confirmCallback := rfl

@[simp]
theorem apiCall_start_elements (s : AppState) (r : Request) :
    (apiCall_start s r).elements = s.elements := rfl

@[simp]
theorem apiCall_start_alerts (s : AppState) (r : Request) :
    (apiCall_start s r).alerts = s.alerts := rfl

@[simp]
theorem apiCall_start_invokedCallbacks (s : AppState) (r : Request) :
    (apiCall_start s r).invokedCallbacks = s.invokedCallbacks := rfl

@[simp]
theorem apiCall_start_uploadStructuredBtn (s : AppState) (r : Request) :
    (apiCall_start s r).uploadStructuredBtn = s.uploadStructuredBtn := rfl

@[simp]
theorem loadAllStructuredDocuments_start_selectedChatStructuredDocumentId (s : AppState) :
    (loadAllStructuredDocuments_start s).selectedChatStructuredDocumentId = s.selectedChatStructuredDocumentId := rfl

@[simp]
theorem loadAllStructuredDocuments_start_currentChatSessionMessages (s : AppState) :
    (loadAllStructuredDocuments_start s).currentChatSessionMessages = s.currentChatSessionMessages := rfl

@[simp]
theorem loadAllStructuredDocuments_start_selectedStructuredUploadFile (s : AppState) :
    (loadAllStructuredDocuments_start s).selectedStructuredUploadFile = s.selectedStructuredUploadFile := rfl

@[simp]
theorem loadAllStructuredDocuments_start_confirmCallback (s : AppState) :
    (loadAllStructuredDocuments_start s).confirmCallback = s.confirmCallback := rfl

@[simp]
theorem loadAllStructuredDocuments_start_elements (s : AppState) :
    (loadAllStructuredDocuments_start s).elements = s.elements := rfl

@[simp]
theorem loadAllStructuredDocuments_start_alerts (s : AppState) :
    (loadAllStructuredDocuments_start s).alerts = s.alerts := rfl

@[simp]
theorem loadAllStructuredDocuments_start_invokedCallbacks (s : AppState) :
    (loadAllStructuredDocuments_start s).invokedCallbacks = s.invokedCallbacks := rfl

@[simp]
theorem loadAllStructuredDocuments_start_uploadStructuredBtn (s : AppState) :
    (loadAllStructuredDocuments_start s).uploadStructuredBtn = s.uploadStructuredBtn := rfl

@[simp]
theorem loadStructuredDocumentsForChat_start_selectedChatStructuredDocumentId (s : AppState) :
    (loadStructuredDocumentsForChat_start s).selectedChatStructuredDocumentId = s.selectedChatStructuredDocumentId := rfl

@[simp]
theorem loadStructuredDocumentsForChat_start_currentChatSessionMessages (s : AppState) :
    (loadStructuredDocumentsForChat_start s).currentChatSessionMessages = s.currentChatSessionMessages := rfl

@[simp]
theorem loadStructuredDocumentsForChat_start_selectedStructuredUploadFile (s : AppState) :
    (loadStructuredDocumentsForChat_start s).selectedStructuredUploadFile = s.selectedStructuredUploadFile := rfl

@[simp]
theorem loadStructuredDocumentsForChat_start_confirmCallback (s : AppState) :
    (loadStructuredDocumentsForChat_start s).confirmCallback = s.confirmCallback := rfl

@[simp]
theorem loadStructuredDocumentsForChat_start_elements (s : AppState) :
    (loadStructuredDocumentsForChat_start s).elements = s.elements := rfl

@[simp]
theorem loadStructuredDocumentsForChat_start_alerts (s : AppState) :
    (loadStructuredDocumentsForChat_start s).alerts = s.alerts := rfl

@[simp]
theorem loadStructuredDocumentsForChat_start_invokedCallbacks (s : AppState) :
    (loadStructuredDocumentsForChat_start s).invokedCallbacks = s.invokedCallbacks := rfl

@[simp]
theorem loadStructuredDocumentsForChat_start_uploadStructuredBtn (s : AppState) :
    (loadStructuredDocumentsForChat_start s).uploadStructuredBtn = s.uploadStructuredBtn := rfl

@[simp]
theorem loadAllChatHistory_start_selectedChatStructuredDocumentId (s : AppState) :
    (loadAllChatHistory_start s).selectedChatStructuredDocumentId = s.selectedChatStructuredDocumentId := rfl

@[simp]
theorem loadAllChatHistory_start_currentChatSessionMessages (s : AppState) :
    (loadAllChatHistory_start s).currentChatSessionMessages = s.currentChatSessionMessages := rfl

@[simp]
theorem loadAllChatHistory_start_selectedStructuredUploadFile (s : AppState) :
    (loadAllChatHistory_start s).selectedStructuredUploadFile = s.selectedStructuredUploadFile := rfl

@[simp]
theorem loadAllChatHistory_start_confirmCallback (s : AppState) :
    (loadAllChatHistory_start s).confirmCallback = s.confirmCallback := rfl

@[simp]
theorem loadAllChatHistory_start_elements (s : AppState) :
    (loadAllChatHistory_start s).elements = s.elements := rfl

@[simp]
theorem loadAllChatHistory_start_alerts (s : AppState) :
    (loadAllChatHistory_start s).alerts = s.alerts := rfl

@[simp]
theorem loadAllChatHistory_start_invokedCallbacks (s : AppState) :
    (loadAllChatHistory_start s).invokedCallbacks = s.invokedCallbacks := rfl

@[simp]
theorem loadAllChatHistory_start_uploadStructuredBtn (s : AppState) :
    (loadAllChatHistory_start s).uploadStructuredBtn = s.uploadStructuredBtn := rfl

@[simp]
theorem renderStructuredDocumentList_selectedChatStructuredDocumentId (s : AppState) (documents : List Doc) :
    (renderStructuredDocumentList s documents).selectedChatStructuredDocumentId = s.selectedChatStructuredDocumentId := by unfold renderStructuredDocumentList; split <;> rfl

@[simp]
theorem renderStructuredDocumentList_currentChatSessionMessages (s : AppState) (documents : List Doc) :
    (renderStructuredDocumentList s documents).currentChatSessionMessages = s.currentChatSessionMessages := by unfold renderStructuredDocumentList; split <;> rfl

@[simp]
theorem renderStructuredDocumentList_selectedStructuredUploadFile (s : AppState) (documents : List Doc) :
    (renderStructuredDocumentList s documents).selectedStructuredUploadFile = s.selectedStructuredUploadFile := by unfold renderStructuredDocumentList; split <;> rfl

@[simp]
theorem renderStructuredDocumentList_confirmCallback (s : AppState) (documents : List Doc) :
    (renderStructuredDocumentList s documents).confirmCallback = s.confirmCallback := by unfold renderStructuredDocumentList; split <;> rfl

@[simp]
theorem renderStructuredDocumentList_elements (s : AppState) (documents : List Doc) :
    (renderStructuredDocumentList s documents).elements = s.elements := by unfold renderStructuredDocumentList; split <;> rfl

@[simp]
theorem renderStructuredDocumentList_alerts (s : AppState) (documents : List Doc) :
    (renderStructuredDocumentList s documents).alerts = s.alerts := by unfold renderStructuredDocumentList; split <;> rfl

@[simp]
theorem renderStructuredDocumentList_requests (s : AppState) (documents : List Doc) :
    (renderStructuredDocumentList s documents).requests = s.requests := by unfold renderStructuredDocumentList; split <;> rfl

@[simp]
theorem renderStructuredDocumentList_invokedCallbacks (s : AppState) (documents : List Doc) :
    (renderStructuredDocumentList s documents).invokedCallbacks = s.invokedCallbacks := by unfold renderStructuredDocumentList; split <;> rfl

@[simp]
theorem renderStructuredDocumentList_uploadStructuredBtn (s : AppState) (documents : List Doc) :
    (renderStructuredDocumentList s documents).uploadStructuredBtn = s.uploadStructuredBtn := by unfold renderStructuredDocumentList; split <;> rfl

@[simp]
theorem loadAllStructuredDocuments_resume_selectedChatStructuredDocumentId (s : AppState) (result : Except String (Option (List Doc))) :
    (loadAllStructuredDocuments_resume s result).selectedChatStructuredDocumentId = s.selectedChatStructuredDocumentId := by unfold loadAllStructuredDocuments_resume; cases result <;> simp; split <;> simp

@[simp]
theorem loadAllStructuredDocuments_resume_currentChatSessionMessages (s : AppState) (result : Except String (Option (List Doc))) :
    (loadAllStructuredDocuments_resume s result).currentChatSessionMessages = s.currentChatSessionMessages := by unfold loadAllStructuredDocuments_resume; cases result <;> simp; split <;> simp

@[simp]
theorem loadAllStructuredDocuments_resume_selectedStructuredUploadFile (s : AppState) (result : Except String (Option (List Doc))) :
    (loadAllStructuredDocuments_resume s result).selectedStructuredUploadFile = s.selectedStructuredUploadFile := by unfold loadAllStructuredDocuments_resume; cases result <;> simp; split <;> simp

@[simp]
theorem loadAllStructuredDocuments_resume_confirmCallback (s : AppState) (result : Except String (Option (List Doc))) :
    (loadAllStructuredDocuments_resume s result).confirmCallback = s.confirmCallback := by unfold loadAllStructuredDocuments_resume; cases result <;> simp; split <;> simp

@[simp]
theorem loadAllStructuredDocuments_resume_elements (s : AppState) (result : Except String (Option (List Doc))) :
    (loadAllStructuredDocuments_resume s result).elements = s.elements := by unfold loadAllStructuredDocuments_resume; cases result <;> simp; split <;> simp

@[simp]
theorem loadAllStructuredDocuments_resume_requests (s : AppState) (result : Except String (Option (List Doc))) :
    (loadAllStructuredDocuments_resume s result).requests = s.requests := by unfold loadAllStructuredDocuments_resume; cases result <;> simp; split <;> simp

@[simp]
theorem loadAllStructuredDocuments_resume_invokedCallbacks (s : AppState) (result : Except String (Option (List Doc))) :
    (loadAllStructuredDocuments_resume s result).invokedCallbacks = s.invokedCallbacks := by unfold loadAllStructuredDocuments_resume; cases result <;> simp; split <;> simp

@[simp]
theorem loadAllStructuredDocuments_resume_uploadStructuredBtn (s : AppState) (result : Except String (Option (List Doc))) :
    (loadAllStructuredDocuments_resume s result).uploadStructuredBtn = s.uploadStructuredBtn := by unfold loadAllStructuredDocuments_resume; cases result <;> simp; split <;> simp

@[simp]
theorem navigateToSection_classes_selectedChatStructuredDocumentId (s : AppState) (sectionName : SectionName) :
    (navigateToSection_classes s sectionName).selectedChatStructuredDocumentId = s.selectedChatStructuredDocumentId := by unfold navigateToSection_classes; dsimp only; split <;> split <;> rfl

@[simp]
theorem navigateToSection_classes_currentChatSessionMessages (s : AppState) (sectionName : SectionName) :
    (navigateToSection_classes s sectionName).currentChatSessionMessages = s.currentChatSessionMessages := by unfold navigateToSection_classes; dsimp only; split <;> split <;> rfl

@[simp]
theorem navigateToSection_classes_selectedStructuredUploadFile (s : AppState) (sectionName : SectionName) :
    (navigateToSection_classes s sectionName).selectedStructuredUploadFile = s.selectedStructuredUploadFile := by unfold navigateToSection_classes; dsimp only; split <;> split <;> rfl

@[simp]
theorem navigateToSection_classes_confirmCallback (s : AppState) (sectionName : SectionName) :
    (navigateToSection_classes s sectionName).confirmCallback = s.confirmCallback := by unfold navigateToSection_classes; dsimp only; split <;> split <;> rfl

@[simp]
theorem navigateToSection_classes_elements (s : AppState) (sectionName : SectionName) :
    (navigateToSection_classes s sectionName).elements = s.elements := by unfold navigateToSection_classes; dsimp only; split <;> split <;> rfl

@[simp]
theorem navigateToSection_classes_alerts (s : AppState) (sectionName : SectionName) :
    (navigateToSection_classes s sectionName).alerts = s.alerts := by unfold navigateToSection_classes; dsimp only; split <;> split <;> rfl

@[simp]
theorem navigateToSection_classes_requests (s : AppState) (sectionName : SectionName) :
    (navigateToSection_classes s sectionName).requests = s.requests := by unfold navigateToSection_classes; dsimp only; split <;> split <;> rfl

@[simp]
theorem navigateToSection_classes_invokedCallbacks (s : AppState) (sectionName : SectionName) :
    (navigateToSection_classes s sectionName).invokedCallbacks = s.invokedCallbacks := by unfold navigateToSection_classes; dsimp only; split <;> split <;> rfl

@[simp]
theorem navigateToSection_classes_uploadStructuredBtn (s : AppState) (sectionName : SectionName) :
    (navigateToSection_classes s sectionName).uploadStructuredBtn = s.uploadStructuredBtn := by unfold navigateToSection_classes; dsimp only; split <;> split <;> rfl

@[simp]
theorem navigateToSection_selectedChatStructuredDocumentId (s : AppState) (sectionName : SectionName) :
    (navigateToSection s sectionName).selectedChatStructuredDocumentId = s.selectedChatStructuredDocumentId := by cases sectionName <;> simp [navigateToSection]

@[simp]
theorem navigateToSection_currentChatSessionMessages (s : AppState) (sectionName : SectionName) :
    (navigateToSection s sectionName).currentChatSessionMessages = s.currentChatSessionMessages := by cases sectionName <;> simp [navigateToSection]

@[simp]
theorem navigateToSection_selectedStructuredUploadFile (s : AppState) (sectionName : SectionName) :
    (navigateToSection s sectionName).selectedStructuredUploadFile = s.selectedStructuredUploadFile := by cases sectionName <;> simp [navigateToSection]

@[simp]
theorem navigateToSection_confirmCallback (s : AppState) (sectionName : SectionName) :
    (navigateToSection s sectionName).confirmCallback = s.confirmCallback := by cases sectionName <;> simp [navigateToSection]

@[simp]
theorem navigateToSection_elements (s : AppState) (sectionName : SectionName) :
    (navigateToSection s sectionName).elements = s.elements := by cases sectionName <;> simp [navigateToSection]

@[simp]
theorem navigateToSection_alerts (s : AppState) (sectionName : SectionName) :
    (navigateToSection s sectionName).alerts = s.alerts := by cases sectionName <;> simp [navigateToSection]

@[simp]
theorem navigateToSection_invokedCallbacks (s : AppState) (sectionName : SectionName) :
    (navigateToSection s sectionName).invokedCallbacks = s.invokedCallbacks := by cases sectionName <;> simp [navigateToSection]

@[simp]
theorem navigateToSection_uploadStructuredBtn (s : AppState) (sectionName : SectionName) :
    (navigateToSection s sectionName).uploadStructuredBtn = s.uploadStructuredBtn := by cases sectionName <;> simp [navigateToSection]

@[simp]
theorem navigateToSection_settled_selectedChatStructuredDocumentId (s : AppState) :
    (navigateToSection_settled s).selectedChatStructuredDocumentId = s.selectedChatStructuredDocumentId := by simp [navigateToSection_settled]

@[simp]
theorem navigateToSection_settled_currentChatSessionMessages (s : AppState) :
    (navigateToSection_settled s).currentChatSessionMessages = s.currentChatSessionMessages := by simp [navigateToSection_settled]

@[simp]
theorem navigateToSection_settled_selectedStructuredUploadFile (s : AppState) :
    (navigateToSection_settled s).selectedStructuredUploadFile = s.selectedStructuredUploadFile := by simp [navigateToSection_settled]

@[simp]
theorem navigateToSection_settled_confirmCallback (s : AppState) :
    (navigateToSection_settled s).confirmCallback = s.confirmCallback := by simp [navigateToSection_settled]

@[simp]
theorem navigateToSection_settled_elements (s : AppState) :
    (navigateToSection_settled s).elements = s.elements := by simp [navigateToSection_settled]

@[simp]
theorem navigateToSection_settled_alerts (s : AppState) :
    (navigateToSection_settled s).alerts = s.alerts := by simp [navigateToSection_settled]

@[simp]
theorem navigateToSection_settled_requests (s : AppState) :
    (navigateToSection_settled s).requests = s.requests := by simp [navigateToSection_settled]

@[simp]
theorem navigateToSection_settled_invokedCallbacks (s : AppState) :
    (navigateToSection_settled s).invokedCallbacks = s.invokedCallbacks := by simp [navigateToSection_settled]

@[simp]
theorem navigateToSection_settled_uploadStructuredBtn (s : AppState) :
    (navigateToSection_settled s).uploadStructuredBtn = s.uploadStructuredBtn := by simp [navigateToSection_settled]

@[simp]
theorem markSelectedItem_selectedChatStructuredDocumentId (s : AppState) (docId : Option String) :
    (markSelectedItem s docId).selectedChatStructuredDocumentId = s.selectedChatStructuredDocumentId := rfl

@[simp]
theorem markSelectedItem_currentChatSessionMessages (s : AppState) (docId : Option String) :
    (markSelectedItem s docId).currentChatSessionMessages = s.currentChatSessionMessages := rfl

@[simp]
theorem markSelectedItem_selectedStructuredUploadFile (s : AppState) (docId : Option String) :
    (markSelectedItem s docId).selectedStructuredUploadFile = s.selectedStructuredUploadFile := rfl

@[simp]
theorem markSelectedItem_confirmCallback (s : AppState) (docId : Option String) :
    (markSelectedItem s docId).confirmCallback = s.confirmCallback := rfl

@[simp]
theorem markSelectedItem_elements (s : AppState) (docId : Option String) :
    (markSelectedItem s docId).elements = s.elements := rfl

@[simp]
theorem markSelectedItem_alerts (s : AppState) (docId : Option String) :
    (markSelectedItem s docId).alerts = s.alerts := rfl

@[simp]
theorem markSelectedItem_requests (s : AppState) (docId : Option String) :
    (markSelectedItem s docId).requests = s.requests := rfl

@[simp]
theorem markSelectedItem_invokedCallbacks (s : AppState) (docId : Option String) :
    (markSelectedItem s docId).invokedCallbacks = s.invokedCallbacks := rfl

@[simp]
theorem markSelectedItem_uploadStructuredBtn (s : AppState) (docId : Option String) :
    (markSelectedItem s docId).uploadStructuredBtn = s.uploadStructuredBtn := rfl

@[simp]
theorem updateSelectedStructuredFilesUI_selectedChatStructuredDocumentId (s : AppState) :
    (updateSelectedStructuredFilesUI s).selectedChatStructuredDocumentId = s.selectedChatStructuredDocumentId := by unfold updateSelectedStructuredFilesUI; split <;> first | rfl | (split <;> split <;> rfl)

@[simp]
theorem updateSelectedStructuredFilesUI_currentChatSessionMessages (s : AppState) :
    (updateSelectedStructuredFilesUI s).currentChatSessionMessages = s.currentChatSessionMessages := by unfold updateSelectedStructuredFilesUI; split <;> first | rfl | (split <;> split <;> rfl)

@[simp]
theorem updateSelectedStructuredFilesUI_selectedStructuredUploadFile (s : AppState) :
    (updateSelectedStructuredFilesUI s).selectedStructuredUploadFile = s.selectedStructuredUploadFile := by unfold updateSelectedStructuredFilesUI; split <;> first | rfl | (split <;> split <;> rfl)

@[simp]
theorem updateSelectedStructuredFilesUI_confirmCallback (s : AppState) :
    (updateSelectedStructuredFilesUI s).confirmCallback = s.confirmCallback := by unfold updateSelectedStructuredFilesUI; split <;> first | rfl | (split <;> split <;> rfl)

@[simp]
theorem updateSelectedStructuredFilesUI_elements (s : AppState) :
    (updateSelectedStructuredFilesUI s).elements = s.elements := by unfold updateSelectedStructuredFilesUI; split <;> first | rfl | (split <;> split <;> rfl)

@[simp]
theorem updateSelectedStructuredFilesUI_alerts (s : AppState) :
    (updateSelectedStructuredFilesUI s).alerts = s.alerts := by unfold updateSelectedStructuredFilesUI; split <;> first | rfl | (split <;> split <;> rfl)

@[simp]
theorem updateSelectedStructuredFilesUI_requests (s : AppState) :
    (updateSelectedStructuredFilesUI s).requests = s.requests := by unfold updateSelectedStructuredFilesUI; split <;> first | rfl | (split <;> split <;> rfl)

@[simp]
theorem updateSelectedStructuredFilesUI_invokedCallbacks (s : AppState) :
    (updateSelectedStructuredFilesUI s).invokedCallbacks = s.invokedCallbacks := by unfold updateSelectedStructuredFilesUI; split <;> first | rfl | (split <;> split <;> rfl)

@[simp]
theorem addMessageToChatUI_selectedChatStructuredDocumentId (s : AppState) (content : String) (sender : Sender) (timestamp : String) (isNew : Bool) :
    (addMessageToChatUI s content sender timestamp isNew).selectedChatStructuredDocumentId = s.selectedChatStructuredDocumentId := by unfold addMessageToChatUI; split <;> first | rfl | (split <;> rfl)

@[simp]
theorem addMessageToChatUI_selectedStructuredUploadFile (s : AppState) (content : String) (sender : Sender) (timestamp : String) (isNew : Bool) :
    (addMessageToChatUI s content sender timestamp isNew).selectedStructuredUploadFile = s.selectedStructuredUploadFile := by unfold addMessageToChatUI; split <;> first | rfl | (split <;> rfl)

@[simp]
theorem addMessageToChatUI_confirmCallback (s : AppState) (content : String) (sender : Sender) (timestamp : String) (isNew : Bool) :
    (addMessageToChatUI s content sender timestamp isNew).confirmCallback = s.confirmCallback := by unfold addMessageToChatUI; split <;> first | rfl | (split <;> rfl)

@[simp]
theorem addMessageToChatUI_elements (s : AppState) (content : String) (sender : Sender) (timestamp : String) (isNew : Bool) :
    (addMessageToChatUI s content sender timestamp isNew).elements = s.elements := by unfold addMessageToChatUI; split <;> first | rfl | (split <;> rfl)

@[simp]
theorem addMessageToChatUI_alerts (s : AppState) (content : String) (sender : Sender) (timestamp : String) (isNew : Bool) :
    (addMessageToChatUI s content sender timestamp isNew).alerts = s.alerts := by unfold addMessageToChatUI; split <;> first | rfl | (split <;> rfl)

@[simp]
theorem addMessageToChatUI_requests (s : AppState) (content : String) (sender : Sender) (timestamp : String) (isNew : Bool) :
    (addMessageToChatUI s content sender timestamp isNew).requests = s.requests := by unfold addMessageToChatUI; split <;> first | rfl | (split <;> rfl)

@[simp]
theorem addMessageToChatUI_invokedCallbacks (s : AppState) (content : String) (sender : Sender) (timestamp : String) (isNew : Bool) :
    (addMessageToChatUI s content sender timestamp isNew).invokedCallbacks = s.invokedCallbacks := by unfold addMessageToChatUI; split <;> first | rfl | (split <;> rfl)

@[simp]
theorem addMessageToChatUI_uploadStructuredBtn (s : AppState) (content : String) (sender : Sender) (timestamp : String) (isNew : Bool) :
    (addMessageToChatUI s content sender timestamp isNew).uploadStructuredBtn = s.uploadStructuredBtn := by unfold addMessageToChatUI; split <;> first | rfl | (split <;> rfl)


/-- Rendering a stored message (`isNew = false`) does not touch the transcript. -/
@[simp]
theorem addMessageToChatUI_false_currentChatSessionMessages (s : AppState) (content : String)
    (sender : Sender) (timestamp : String) :
    (addMessageToChatUI s content sender timestamp false).currentChatSessionMessages
      = s.currentChatSessionMessages := by
  unfold addMessageToChatUI; split <;> rfl

/-- A projection that no single rendering changes is not changed by rendering a list. -/
theorem foldl_addMessageToChatUI_frame {γ : Type} (p : AppState → γ)
    (hp : ∀ s c sd t, p (addMessageToChatUI s c sd t false) = p s)
    (l : List ChatMessage) (s : AppState) :
    p (l.foldl (fun acc msg => addMessageToChatUI acc msg.content msg.sender msg.timestamp false) s)
      = p s := by
  induction l generalizing s with
  | nil => rfl
  | cons m ms ih => rw [List.foldl_cons, ih, hp]

@[simp]
theorem renderChatMessageHistoryUI_selectedChatStructuredDocumentId (s : AppState) :
    (renderChatMessageHistoryUI s).selectedChatStructuredDocumentId = s.selectedChatStructuredDocumentId := by
  unfold renderChatMessageHistoryUI; split
  · dsimp only; split
    · rfl
    · exact foldl_addMessageToChatUI_frame (fun x => x.selectedChatStructuredDocumentId) (fun _ _ _ _ => by simp) _ _
  · rfl

@[simp]
theorem renderChatMessageHistoryUI_currentChatSessionMessages (s : AppState) :
    (renderChatMessageHistoryUI s).currentChatSessionMessages = s.currentChatSessionMessages := by
  unfold renderChatMessageHistoryUI; split
  · dsimp only; split
    · rfl
    · exact foldl_addMessageToChatUI_frame (fun x => x.currentChatSessionMessages) (fun _ _ _ _ => by simp) _ _
  · rfl

@[simp]
theorem renderChatMessageHistoryUI_selectedStructuredUploadFile (s : AppState) :
    (renderChatMessageHistoryUI s).selectedStructuredUploadFile = s.selectedStructuredUploadFile := by
  unfold renderChatMessageHistoryUI; split
  · dsimp only; split
    · rfl
    · exact foldl_addMessageToChatUI_frame (fun x => x.selectedStructuredUploadFile) (fun _ _ _ _ => by simp) _ _
  · rfl

@[simp]
theorem renderChatMessageHistoryUI_confirmCallback (s : AppState) :
    (renderChatMessageHistoryUI s).confirmCallback = s.confirmCallback := by
  unfold renderChatMessageHistoryUI; split
  · dsimp only; split
    · rfl
    · exact foldl_addMessageToChatUI_frame (fun x => x.confirmCallback) (fun _ _ _ _ => by simp) _ _
  · rfl

@[simp]
theorem renderChatMessageHistoryUI_elements (s : AppState) :
    (renderChatMessageHistoryUI s).elements = s.elements := by
  unfold renderChatMessageHistoryUI; split
  · dsimp only; split
    · rfl
    · exact foldl_addMessageToChatUI_frame (fun x => x.elements) (fun _ _ _ _ => by simp) _ _
  · rfl

@[simp]
theorem renderChatMessageHistoryUI_alerts (s : AppState) :
    (renderChatMessageHistoryUI s).alerts = s.alerts := by
  unfold renderChatMessageHistoryUI; split
  · dsimp only; split
    · rfl
    · exact foldl_addMessageToChatUI_frame (fun x => x.alerts) (fun _ _ _ _ => by simp) _ _
  · rfl

@[simp]
theorem renderChatMessageHistoryUI_requests (s : AppState) :
    (renderChatMessageHistoryUI s).requests = s.requests := by
  unfold renderChatMessageHistoryUI; split
  · dsimp only; split
    · rfl
    · exact foldl_addMessageToChatUI_frame (fun x => x.requests) (fun _ _ _ _ => by simp) _ _
  · rfl

@[simp]
theorem renderChatMessageHistoryUI_invokedCallbacks (s : AppState) :
    (renderChatMessageHistoryUI s).invokedCallbacks = s.invokedCallbacks := by
  unfold renderChatMessageHistoryUI; split
  · dsimp only; split
    · rfl
    · exact foldl_addMessageToChatUI_frame (fun x => x.invokedCallbacks) (fun _ _ _ _ => by simp) _ _
  · rfl

@[simp]
theorem renderChatMessageHistoryUI_uploadStructuredBtn (s : AppState) :
    (renderChatMessageHistoryUI s).uploadStructuredBtn = s.uploadStructuredBtn := by
  unfold renderChatMessageHistoryUI; split
  · dsimp only; split
    · rfl
    · exact foldl_addMessageToChatUI_frame (fun x => x.uploadStructuredBtn) (fun _ _ _ _ => by simp) _ _
  · rfl

@[simp]
theorem resetChatUI_selectedStructuredUploadFile (s : AppState) :
    (resetChatUI s).selectedStructuredUploadFile = s.selectedStructuredUploadFile := by unfold resetChatUI; dsimp only; rw [renderChatMessageHistoryUI_selectedStructuredUploadFile]; split <;> split <;> rfl

@[simp]
theorem resetChatUI_confirmCallback (s : AppState) :
    (resetChatUI s).confirmCallback = s.confirmCallback := by unfold resetChatUI; dsimp only; rw [renderChatMessageHistoryUI_confirmCallback]; split <;> split <;> rfl

@[simp]
theorem resetChatUI_elements (s : AppState) :
    (resetChatUI s).elements = s.elements := by unfold resetChatUI; dsimp only; rw [renderChatMessageHistoryUI_elements]; split <;> split <;> rfl

@[simp]
theorem resetChatUI_alerts (s : AppState) :
    (resetChatUI s).alerts = s.alerts := by unfold resetChatUI; dsimp only; rw [renderChatMessageHistoryUI_alerts]; split <;> split <;> rfl

@[simp]
theorem resetChatUI_requests (s : AppState) :
    (resetChatUI s).requests = s.requests := by unfold resetChatUI; dsimp only; rw [renderChatMessageHistoryUI_requests]; split <;> split <;> rfl

@[simp]
theorem resetChatUI_invokedCallbacks (s : AppState) :
    (resetChatUI s).invokedCallbacks = s.invokedCallbacks := by unfold resetChatUI; dsimp only; rw [renderChatMessageHistoryUI_invokedCallbacks]; split <;> split <;> rfl

@[simp]
theorem resetChatUI_uploadStructuredBtn (s : AppState) :
    (resetChatUI s).uploadStructuredBtn = s.uploadStructuredBtn := by unfold resetChatUI; dsimp only; rw [renderChatMessageHistoryUI_uploadStructuredBtn]; split <;> split <;> rfl

/-! ## What the functions write -/

@[simp]
theorem resetChatUI_selected (s : AppState) :
    (resetChatUI s).selectedChatStructuredDocumentId = none := by
  unfold resetChatUI; dsimp only
  rw [renderChatMessageHistoryUI_selectedChatStructuredDocumentId]; split <;> split <;> rfl

@[simp]
theorem resetChatUI_messages (s : AppState) :
    (resetChatUI s).currentChatSessionMessages = [] := by
  unfold resetChatUI; dsimp only
  rw [renderChatMessageHistoryUI_currentChatSessionMessages]; split <;> split <;> rfl

@[simp]
theorem apiCall_start_requests (s : AppState) (r : Request) :
    (apiCall_start s r).requests = s.requests ++ [r] := rfl

@[simp]
theorem showModal_confirmCallback (s : AppState) (title : String) (message : ModalMessage)
    (onConfirm : Callback) (h : s.elements.confirmationModal = true) :
    (showModal s title message onConfirm).confirmCallback = some onConfirm := by
  unfold showModal; rw [if_pos h]

@[simp]
theorem closeModal_confirmCallback (s : AppState) (h : s.elements.confirmationModal = true) :
    (closeModal s).confirmCallback = none := by
  unfold closeModal; rw [if_pos h]

@[simp]
theorem Callback.run_elements (s : AppState) (callback : Callback) :
    (callback.run s).elements = s.elements := by
  cases callback <;> simp [Callback.run]

@[simp]
theorem Callback.run_invokedCallbacks (s : AppState) (callback : Callback) :
    (callback.run s).invokedCallbacks = s.invokedCallbacks := by
  cases callback <;> simp [Callback.run]

@[simp]
theorem showModals_elements (s : AppState) (calls : List (String × ModalMessage × Callback)) :
    (showModals s calls).elements = s.elements := by
  induction calls generalizing s with
  | nil => rfl
  | cons c cs ih => simp [showModals, List.foldl_cons] at ih ⊢; rw [ih]; simp

@[simp]
theorem showModals_invokedCallbacks (s : AppState)
    (calls : List (String × ModalMessage × Callback)) :
    (showModals s calls).invokedCallbacks = s.invokedCallbacks := by
  induction calls generalizing s with
  | nil => rfl
  | cons c cs ih => simp [showModals, List.foldl_cons] at ih ⊢; rw [ih]; simp

theorem showModals_append (s : AppState) (calls : List (String × ModalMessage × Callback))
    (last : String × ModalMessage × Callback) :
    showModals s (calls ++ [last]) = showModal (showModals s calls) last.1 last.2.1 last.2.2 := by
  simp [showModals, List.foldl_append]

/-- A blank string is trimmed to the empty string. -/
theorem jsTrim_of_blank (str : String) (h : ∀ c ∈ str.toList, isJsWhiteSpace c = true) :
    jsTrim str = "" := by
  have h1 : str.toList.dropWhile isJsWhiteSpace = [] := by
    rw [List.dropWhile_eq_nil_iff]; exact h
  unfold jsTrim
  rw [h1]
  rfl

/-! ## Chat selection -/

/-- C1: when document `d` is the selected chat document, `activateChatWithDocument`
called with the same identifier `d` returns with `d` still selected, with the transcript
as it was (whatever it was), and with no notification added. -/
theorem activateChatWithDocument_same_document (s : AppState) (d docFilename docType : String)
    (h : s.selectedChatStructuredDocumentId = some d) :
    (activateChatWithDocument s d docFilename docType).selectedChatStructuredDocumentId = some d ∧
    (activateChatWithDocument s d docFilename docType).currentChatSessionMessages
      = s.currentChatSessionMessages ∧
    (activateChatWithDocument s d docFilename docType).alerts = s.alerts := by
  unfold activateChatWithDocument
  simp only [h, ne_eq, not_true_eq_false, if_false]
  refine ⟨?_, ?_, ?_⟩ <;> simp <;> split <;> split <;> simp [h]

/-- Witness of C1 on a state with document `A` selected and one message in the
transcript. -/
theorem activateChatWithDocument_same_document_witness :
    (activateChatWithDocument
        { initialState with selectedChatStructuredDocumentId := some "A",
                            currentChatSessionMessages := [⟨"hi", Sender.user, "t0"⟩] }
        "A" "a.csv" "structured").selectedChatStructuredDocumentId = some "A" ∧
    (activateChatWithDocument
        { initialState with selectedChatStructuredDocumentId := some "A",
                            currentChatSessionMessages := [⟨"hi", Sender.user, "t0"⟩] }
        "A" "a.csv" "structured").currentChatSessionMessages = [⟨"hi", Sender.user, "t0"⟩] ∧
    (activateChatWithDocument
        { initialState with selectedChatStructuredDocumentId := some "A",
                            currentChatSessionMessages := [⟨"hi", Sender.user, "t0"⟩] }
        "A" "a.csv" "structured").alerts = [] :=
  activateChatWithDocument_same_document
    { initialState with selectedChatStructuredDocumentId := some "A",
                        currentChatSessionMessages := [⟨"hi", Sender.user, "t0"⟩] }
    "A" "a.csv" "structured" rfl

/-- C2: when document `A` is selected, with any transcript, and `B` is a different
identifier, `activateChatWithDocument` called with `B` returns with an empty transcript
and with `B` selected. -/
theorem activateChatWithDocument_other_document (s : AppState) (A B docFilename docType : String)
    (hA : s.selectedChatStructuredDocumentId = some A) (hAB : B ≠ A) :
    (activateChatWithDocument s B docFilename docType).currentChatSessionMessages = [] ∧
    (activateChatWithDocument s B docFilename docType).selectedChatStructuredDocumentId
      = some B := by
  have hne : ¬ A = B := fun h => hAB h.symm
  unfold activateChatWithDocument
  simp only [hA, ne_eq, Option.some.injEq, hne, not_false_eq_true, if_true]
  refine ⟨?_, ?_⟩ <;> simp <;> split <;> split <;> simp

/-- Witness of C2: document `A` selected with one message, then `B` is chosen. -/
theorem activateChatWithDocument_other_document_witness :
    (activateChatWithDocument
        { initialState with selectedChatStructuredDocumentId := some "A",
                            currentChatSessionMessages := [⟨"hi", Sender.user, "t0"⟩] }
        "B" "b.csv" "structured").currentChatSessionMessages = [] ∧
    (activateChatWithDocument
        { initialState with selectedChatStructuredDocumentId := some "A",
                            currentChatSessionMessages := [⟨"hi", Sender.user, "t0"⟩] }
        "B" "b.csv" "structured").selectedChatStructuredDocumentId = some "B" :=
  activateChatWithDocument_other_document
    { initialState with selectedChatStructuredDocumentId := some "A",
                        currentChatSessionMessages := [⟨"hi", Sender.user, "t0"⟩] }
    "A" "B" "b.csv" "structured" rfl (by decide)

/-! ## Chat submission -/

/-- C4: when no document is selected, or the message is empty or made of white space
only, `submitChatMessage` hands no request to `fetch`, appends nothing to the
transcript and leaves the selected document as it was. -/
theorem submitChatMessage_rejected (s : AppState) (messageContent now : String)
    (h : s.selectedChatStructuredDocumentId = none ∨
         ∀ c ∈ messageContent.toList, isJsWhiteSpace c = true) :
    (submitChatMessage_start s messageContent now).requests = s.requests ∧
    (submitChatMessage_start s messageContent now).currentChatSessionMessages
      = s.currentChatSessionMessages ∧
    (submitChatMessage_start s messageContent now).selectedChatStructuredDocumentId
      = s.selectedChatStructuredDocumentId := by
  unfold submitChatMessage_start
  rcases h with h | h
  · simp [h, truthy]
  · rw [jsTrim_of_blank messageContent h]
    split <;> simp

/-- Witness of C4: a message of blanks sent while document `A` is selected. -/
theorem submitChatMessage_rejected_witness :
    (submitChatMessage_start { initialState with selectedChatStructuredDocumentId := some "A" }
        " \t\n" "t0").requests = [] ∧
    (submitChatMessage_start { initialState with selectedChatStructuredDocumentId := some "A" }
        " \t\n" "t0").currentChatSessionMessages = [] ∧
    (submitChatMessage_start { initialState with selectedChatStructuredDocumentId := some "A" }
        " \t\n" "t0").selectedChatStructuredDocumentId = some "A" :=
  submitChatMessage_rejected { initialState with selectedChatStructuredDocumentId := some "A" }
    " \t\n" "t0" (Or.inr (by decide))

/-! ## Confirmation dialog -/

/-- C9: after one or more `showModal` calls (`calls` followed by `last`) on a page
that has the dialog, a click on the confirm button calls the callback given to the last
`showModal`, once, calls no other callback, and leaves `confirmCallback` empty: the
record of called callbacks grows by exactly that one entry. -/
theorem modalConfirmClick_calls_last (s : AppState)
    (calls : List (String × ModalMessage × Callback)) (last : String × ModalMessage × Callback)
    (hm : s.elements.confirmationModal = true) :
    (modalConfirmClick (showModals s (calls ++ [last]))).invokedCallbacks
      = s.invokedCallbacks ++ [last.2.2] ∧
    (modalConfirmClick (showModals s (calls ++ [last]))).confirmCallback = none := by
  have he : (showModals s calls).elements.confirmationModal = true := by simp [hm]
  rw [showModals_append]
  unfold modalConfirmClick
  rw [showModal_confirmCallback _ _ _ _ he]
  constructor
  · simp
  · apply closeModal_confirmCallback
    simp [hm]

/-- Witness of C9: a delete confirmation is opened, then the dialog that follows an
upload; the click runs the second callback only. -/
theorem modalConfirmClick_calls_last_witness :
    (modalConfirmClick (showModals initialState
        ([("Hapus Data", ModalMessage.confirmDelete "a.csv", Callback.deleteDocument "A" "a.csv")]
          ++ [("Unggah Selesai", ModalMessage.uploadFinished "b.csv" 3,
               Callback.chatWithUploaded ⟨"B", "b.csv", 3⟩)]))).invokedCallbacks
      = [] ++ [Callback.chatWithUploaded ⟨"B", "b.csv", 3⟩] ∧
    (modalConfirmClick (showModals initialState
        ([("Hapus Data", ModalMessage.confirmDelete "a.csv", Callback.deleteDocument "A" "a.csv")]
          ++ [("Unggah Selesai", ModalMessage.uploadFinished "b.csv" 3,
               Callback.chatWithUploaded ⟨"B", "b.csv", 3⟩)]))).confirmCallback = none :=
  modalConfirmClick_calls_last initialState
    [("Hapus Data", ModalMessage.confirmDelete "a.csv", Callback.deleteDocument "A" "a.csv")]
    ("Unggah Selesai", ModalMessage.uploadFinished "b.csv" 3,
      Callback.chatWithUploaded ⟨"B", "b.csv", 3⟩) rfl

/-- C10: on a page that has the dialog, after a confirmation is opened and then closed
by the cancel button or by a click outside the dialog box, no callback has been called
and `confirmCallback` is empty, and a click on the confirm button that follows calls no
callback either. -/
theorem closed_dialog_calls_nothing (s : AppState) (title : String) (message : ModalMessage)
    (onConfirm : Callback) (hm : s.elements.confirmationModal = true) :
    ((modalCancelClick (showModal s title message onConfirm)).invokedCallbacks
        = s.invokedCallbacks ∧
      (modalCancelClick (showModal s title message onConfirm)).confirmCallback = none ∧
      (modalConfirmClick (modalCancelClick (showModal s title message onConfirm))).invokedCallbacks
        = s.invokedCallbacks) ∧
    ((modalElementClick (showModal s title message onConfirm) true).invokedCallbacks
        = s.invokedCallbacks ∧
      (modalElementClick (showModal s title message onConfirm) true).confirmCallback = none ∧
      (modalConfirmClick
          (modalElementClick (showModal s title message onConfirm) true)).invokedCallbacks
        = s.invokedCallbacks) := by
  have hc : (closeModal (showModal s title message onConfirm)).confirmCallback = none :=
    closeModal_confirmCallback _ (by simp [hm])
  have h3 : (modalConfirmClick (closeModal (showModal s title message onConfirm))).invokedCallbacks
      = s.invokedCallbacks := by
    unfold modalConfirmClick
    rw [hc]
    simp
  simp only [modalCancelClick, modalElementClick, if_true]
  exact ⟨⟨by simp, hc, h3⟩, ⟨by simp, hc, h3⟩⟩

/-- Witness of C10: a delete confirmation is opened on the initial page and closed. -/
theorem closed_dialog_calls_nothing_witness :
    (modalConfirmClick (modalCancelClick (showModal initialState "Hapus Data"
        (ModalMessage.confirmDelete "a.csv")
        (Callback.deleteDocument "A" "a.csv")))).invokedCallbacks = [] ∧
    (modalConfirmClick (modalElementClick (showModal initialState "Hapus Data"
        (ModalMessage.confirmDelete "a.csv")
        (Callback.deleteDocument "A" "a.csv")) true)).invokedCallbacks = [] :=
  ⟨(closed_dialog_calls_nothing initialState "Hapus Data" (ModalMessage.confirmDelete "a.csv")
      (Callback.deleteDocument "A" "a.csv") rfl).1.2.2,
   (closed_dialog_calls_nothing initialState "Hapus Data" (ModalMessage.confirmDelete "a.csv")
      (Callback.deleteDocument "A" "a.csv") rfl).2.2.2⟩

/-! ## Upload and deletion -/

/-- C7: with file `f` pending, after `performUploadStructuredDocument` the pending file
is empty when the upload call succeeded with a response body, and is still `f` when the
upload call failed; after a failure the selected chat document and the pending
confirmation are also as before. -/
theorem performUploadStructuredDocument_pending_file (s : AppState) (f : File)
    (h : s.selectedStructuredUploadFile = some f) :
    (∀ data : UploadData,
      (performUploadStructuredDocument s (.ok (some data))).selectedStructuredUploadFile = none) ∧
    (∀ message : String,
      (performUploadStructuredDocument s (.error message)).selectedStructuredUploadFile = some f ∧
      (performUploadStructuredDocument s (.error message)).selectedChatStructuredDocumentId
        = s.selectedChatStructuredDocumentId ∧
      (performUploadStructuredDocument s (.error message)).confirmCallback
        = s.confirmCallback) := by
  constructor
  · intro data
    simp [performUploadStructuredDocument, performUploadStructuredDocument_start,
      performUploadStructuredDocument_resume, h]
  · intro message
    simp [performUploadStructuredDocument, performUploadStructuredDocument_start,
      performUploadStructuredDocument_resume, h]

/-- Witness of C7: `report.csv` pending on the initial page, the upload fails. -/
theorem performUploadStructuredDocument_pending_file_witness :
    (performUploadStructuredDocument
        { initialState with selectedStructuredUploadFile := some ⟨"report.csv", 2097152⟩ }
        (.error "HTTP error 500")).selectedStructuredUploadFile = some ⟨"report.csv", 2097152⟩ ∧
    (performUploadStructuredDocument
        { initialState with selectedStructuredUploadFile := some ⟨"report.csv", 2097152⟩ }
        (.ok (some ⟨"d1", "report.csv", 120⟩))).selectedStructuredUploadFile = none :=
  ⟨((performUploadStructuredDocument_pending_file
      { initialState with selectedStructuredUploadFile := some ⟨"report.csv", 2097152⟩ }
      ⟨"report.csv", 2097152⟩ rfl).2 "HTTP error 500").1,
   (performUploadStructuredDocument_pending_file
      { initialState with selectedStructuredUploadFile := some ⟨"report.csv", 2097152⟩ }
      ⟨"report.csv", 2097152⟩ rfl).1 ⟨"d1", "report.csv", 120⟩⟩

/-- A successful call that returns `null` (status 204 or an empty body, lines 172-174)
is not a response of the upload endpoint; the script then fails on `data.filename` and
treats the call as failed: the pending file stays. -/
theorem performUploadStructuredDocument_null_body (s : AppState) (f : File)
    (h : s.selectedStructuredUploadFile = some f) :
    (performUploadStructuredDocument s (.ok none)).selectedStructuredUploadFile = some f := by
  simp [performUploadStructuredDocument, performUploadStructuredDocument_start,
    performUploadStructuredDocument_resume, h]

/-- The deletion path when the `DELETE` call is answered with a body: on a page that
has the dialog, when the deletion of document `d` is confirmed and the call succeeds
with a response body, then, whatever the list refresh answers: if `d` was the selected
chat document, afterwards no document is selected and the transcript is empty; if `d`
was not the selected one, the selection and the transcript are as before. -/
theorem confirmedDeletion_chat_session (s : AppState) (d filename : String)
    (response : DeleteResponse) (listResult : Except String (Option (List Doc)))
    (hm : s.elements.confirmationModal = true) :
    (s.selectedChatStructuredDocumentId = some d →
      (confirmedDeletion s d filename (.ok (some response)) listResult).selectedChatStructuredDocumentId
          = none ∧
      (confirmedDeletion s d filename (.ok (some response)) listResult).currentChatSessionMessages
          = []) ∧
    (s.selectedChatStructuredDocumentId ≠ some d →
      (confirmedDeletion s d filename (.ok (some response)) listResult).selectedChatStructuredDocumentId
          = s.selectedChatStructuredDocumentId ∧
      (confirmedDeletion s d filename (.ok (some response)) listResult).currentChatSessionMessages
          = s.currentChatSessionMessages) := by
  unfold confirmedDeletion confirmDeleteStructuredDocument modalConfirmClick
  rw [showModal_confirmCallback _ _ _ _ hm]
  simp only [Callback.run, deleteDocument_afterDelete, deleteDocument_afterRefresh]
  constructor
  · intro hsel
    simp [hsel]
  · intro hsel
    simp [hsel]

/-- An instance of the deletion path with a body: document `A` is selected with one
message and is deleted. -/
theorem confirmedDeletion_chat_session_witness :
    (confirmedDeletion
        { initialState with selectedChatStructuredDocumentId := some "A",
                            currentChatSessionMessages := [⟨"hi", Sender.user, "t0"⟩] }
        "A" "a.csv" (.ok (some ⟨some "deleted"⟩)) (.ok (some []))).selectedChatStructuredDocumentId
      = none ∧
    (confirmedDeletion
        { initialState with selectedChatStructuredDocumentId := some "A",
                            currentChatSessionMessages := [⟨"hi", Sender.user, "t0"⟩] }
        "A" "a.csv" (.ok (some ⟨some "deleted"⟩)) (.ok (some []))).currentChatSessionMessages
      = [] :=
  (confirmedDeletion_chat_session
      { initialState with selectedChatStructuredDocumentId := some "A",
                          currentChatSessionMessages := [⟨"hi", Sender.user, "t0"⟩] }
      "A" "a.csv" ⟨some "deleted"⟩ (.ok (some [])) rfl).1 rfl

/-- A successful response with status 204 makes `apiCall` return `null`
(lines 172-174). -/
theorem apiCall_settle_no_content {α : Type} (response : HttpResponse α)
    (hs : response.status = 204) :
    apiCall_settle (.resolved response) = .ok none := by
  unfold apiCall_settle
  simp [HttpResponse.ok, hs]

/-- Whatever the state: on a page that has the dialog, when the deletion of `d` is
confirmed and `apiCall` returns `null` for the `DELETE` call, line 757 fails on
`response.message`, the `catch` block runs, and neither the list refresh nor the test
of line 763 is reached: the selection and the transcript are as before, also when `d`
is the selected document. -/
theorem confirmedDeletion_null_body (s : AppState) (d filename : String)
    (listResult : Except String (Option (List Doc)))
    (hm : s.elements.confirmationModal = true) :
    (confirmedDeletion s d filename (.ok none) listResult).selectedChatStructuredDocumentId
      = s.selectedChatStructuredDocumentId ∧
    (confirmedDeletion s d filename (.ok none) listResult).currentChatSessionMessages
      = s.currentChatSessionMessages := by
  unfold confirmedDeletion confirmDeleteStructuredDocument modalConfirmClick
  rw [showModal_confirmCallback _ _ _ _ hm]
  simp [Callback.run, deleteDocument_afterDelete]

/-- C8, the run that breaks the claim: document `A` is selected with a question and
its answer in the transcript, its deletion is confirmed and the service answers the
`DELETE` call with status 204. Afterwards `A` is still the selected document, the
transcript still holds the two messages, the last notification reports a failed
deletion and the `DELETE` call is the last request: no list refresh was started. -/
theorem delete_no_content_keeps_chat_session :
    deleteNoContentRun.selectedChatStructuredDocumentId = some "A" ∧
    deleteNoContentRun.currentChatSessionMessages
      = [⟨"hi", Sender.user, "t1"⟩, ⟨"halo", Sender.assistant, "t2"⟩] ∧
    deleteNoContentRun.alerts.getLast?
      = some ⟨AlertText.deleteFailed "a.csv" typeErrorMessage, AlertType.error⟩ ∧
    deleteNoContentRun.requests.getLast? = some (Request.deleteStructuredDocument "A") := by
  decide

/-! ## Upload check and submit control -/

/-- C5, the claim as worded fails: a file named `csv`, which has no extension, of
size 1 becomes the pending file. -/
theorem handleStructuredFileSelection_accepts_extensionless :
    ¬ ((handleStructuredFileSelection initialState [⟨"csv", 1⟩]).selectedStructuredUploadFile
          = some ⟨"csv", 1⟩ ↔ specAccepts ⟨"csv", 1⟩ = true) := by
  decide

/-- C5, amended: for a list of files that starts with `file`, after
`handleStructuredFileSelection` the pending file is `file` if and only if its size is at
most 10 MiB and the last dot-separated segment of its name (the whole name when it has
no dot), lowered, is one of `xlsx`, `xls`, `csv`; otherwise the pending file is empty;
and no request is handed to `fetch`. -/
theorem handleStructuredFileSelection_pending_file (s : AppState) (file : File)
    (rest : List File) :
    ((handleStructuredFileSelection s (file :: rest)).selectedStructuredUploadFile = some file ↔
      file.size ≤ 10 * 1024 * 1024 ∧ fileExtension file.name ∈ allowedExtensions) ∧
    ((handleStructuredFileSelection s (file :: rest)).selectedStructuredUploadFile = some file ∨
      (handleStructuredFileSelection s (file :: rest)).selectedStructuredUploadFile = none) ∧
    (handleStructuredFileSelection s (file :: rest)).requests = s.requests := by
  have hmax : MAX_STRUCTURED_FILE_SIZE_BYTES = 10 * 1024 * 1024 := rfl
  unfold handleStructuredFileSelection
  simp only [hmax]
  by_cases hsize : file.size > 10 * 1024 * 1024
  · have : ¬ file.size ≤ 10 * 1024 * 1024 := by omega
    simp [hsize, this]
    split <;> simp
  · have hle : file.size ≤ 10 * 1024 * 1024 := by omega
    by_cases hext : fileExtension file.name ∈ allowedExtensions
    · simp [hsize, hle, hext]
      split <;> simp
    · simp [hsize, hle, hext]
      split <;> simp

/-- The selection handler sets the submit control from the pending file (line 273). -/
theorem handleStructuredFileSelection_submit_control (s : AppState) (file : File)
    (rest : List File) (hb : s.elements.uploadStructuredBtn = true) :
    (handleStructuredFileSelection s (file :: rest)).uploadStructuredBtn.disabled
      = !(handleStructuredFileSelection s (file :: rest)).selectedStructuredUploadFile.isSome := by
  unfold handleStructuredFileSelection
  by_cases hsize : file.size > MAX_STRUCTURED_FILE_SIZE_BYTES
  · simp [hsize, hb]
  · by_cases hext : fileExtension file.name ∈ allowedExtensions
    · simp [hsize, hext, hb]
    · simp [hsize, hext, hb]

/-- Whatever the page looked like before: on a page with the submit control, a
successful upload ends with no pending file and the submit control enabled, because
line 338 enables it after line 282 disabled it. -/
theorem performUploadStructuredDocument_success_submit_control (s : AppState) (f : File)
    (data : UploadData) (h : s.selectedStructuredUploadFile = some f)
    (hb : s.elements.uploadStructuredBtn = true) :
    (performUploadStructuredDocument s (.ok (some data))).selectedStructuredUploadFile = none ∧
    (performUploadStructuredDocument s (.ok (some data))).uploadStructuredBtn.disabled = false := by
  constructor
  · simp [performUploadStructuredDocument, performUploadStructuredDocument_start,
      performUploadStructuredDocument_resume, h]
  · simp [performUploadStructuredDocument, performUploadStructuredDocument_start,
      performUploadStructuredDocument_resume, h, setButtonLoading_uploadStructuredBtn, hb,
      Button.setLoading]

/-- C6, the run that breaks the claim: after `report.csv` was uploaded with success
no file is pending and the submit control is enabled. -/
theorem upload_success_leaves_submit_enabled :
    uploadSucceededRun.selectedStructuredUploadFile = none ∧
    uploadSucceededRun.uploadStructuredBtn.disabled = false := by
  decide

/-- Whatever the state: when the dialog that follows an upload is confirmed, the
selected document becomes the uploaded one and the transcript is not touched
(lines 330-331 and `closeModal`). -/
theorem modalConfirmClick_chatWithUploaded (s : AppState) (data : UploadData)
    (h : s.confirmCallback = some (Callback.chatWithUploaded data)) :
    (modalConfirmClick s).selectedChatStructuredDocumentId = some data.id ∧
    (modalConfirmClick s).currentChatSessionMessages = s.currentChatSessionMessages := by
  unfold modalConfirmClick
  rw [h]
  simp [Callback.run]

/-- C3, the run that breaks the claim: after the dialog that follows the upload of
`B` is confirmed, `B` is the selected document and the transcript still holds the
two messages exchanged about `A`. -/
theorem chat_after_upload_keeps_old_transcript :
    chatAfterUploadRun.selectedChatStructuredDocumentId = some "B" ∧
    chatAfterUploadRun.currentChatSessionMessages
      = [⟨"total?", Sender.user, "t1"⟩, ⟨"42", Sender.assistant, "t2"⟩] := by
  decide

/-! ## Chat turns -/

/-- A new message is appended to the transcript when the message container exists. -/
theorem addMessageToChatUI_new_messages (s : AppState) (content : String) (sender : Sender)
    (timestamp : String) (hc : s.elements.chatMessagesContainer = true) :
    (addMessageToChatUI s content sender timestamp true).currentChatSessionMessages
      = s.currentChatSessionMessages ++ [⟨content, sender, timestamp⟩] := by
  unfold addMessageToChatUI
  rw [if_pos hc]
  rfl

/-- A string with a character that is not white space is not trimmed to the empty
string. -/
theorem jsTrim_of_not_blank (str : String)
    (h : ∃ c ∈ str.toList, isJsWhiteSpace c = false) : (jsTrim str == "") = false := by
  obtain ⟨c, hc, hw⟩ := h
  have h1 : str.toList.dropWhile isJsWhiteSpace ≠ [] := by
    intro hnil
    rw [List.dropWhile_eq_nil_iff] at hnil
    have := hnil c hc
    rw [hw] at this
    exact Bool.noConfusion this
  have h2 : (str.toList.dropWhile isJsWhiteSpace).reverse.dropWhile isJsWhiteSpace ≠ [] := by
    intro hnil
    rw [List.dropWhile_eq_nil_iff] at hnil
    have hhead := List.head_dropWhile_not isJsWhiteSpace str.toList h1
    have := hnil _ (List.mem_reverse.mpr (List.head_mem h1))
    rw [hhead] at this
    exact Bool.noConfusion this
  have h3 : jsTrim str ≠ "" := by
    intro heq
    have hd := congrArg String.data heq
    unfold jsTrim at hd
    exact h2 (List.reverse_eq_nil_iff.mp hd)
  simpa using h3

/-- The synchronous part of an accepted submission appends the user entry. -/
theorem submitChatMessage_start_accepted_messages (s : AppState) (messageContent now : String)
    (hsel : truthy s.selectedChatStructuredDocumentId = true)
    (hmsg : (jsTrim messageContent == "") = false)
    (hc : s.elements.chatMessagesContainer = true) :
    (submitChatMessage_start s messageContent now).currentChatSessionMessages
      = s.currentChatSessionMessages ++ [⟨messageContent, Sender.user, now⟩] := by
  unfold submitChatMessage_start
  simp only [hsel, hmsg, Bool.not_true, Bool.false_eq_true, if_false]
  have h1 := addMessageToChatUI_new_messages s messageContent Sender.user now hc
  simp only [apiCall_start_currentChatSessionMessages]
  split <;> simp [h1] <;> split <;> simp [h1]

@[simp]
theorem submitChatMessage_start_elements (s : AppState) (messageContent now : String) :
    (submitChatMessage_start s messageContent now).elements = s.elements := by
  unfold submitChatMessage_start
  split
  · simp
  · split
    · simp
    · simp only [apiCall_start_elements]
      split <;> simp <;> split <;> simp

/-- When the `/chat` call succeeds with a body, the reply is appended to the
transcript that is current at that moment. -/
theorem submitChatMessage_resume_ok_messages (s : AppState) (responseData : ChatResponse)
    (later : String) (hc : s.elements.chatMessagesContainer = true) :
    (submitChatMessage_resume s (.ok (some responseData)) later).currentChatSessionMessages
      = s.currentChatSessionMessages ++ [⟨responseData.response, Sender.assistant, later⟩] := by
  have h1 := addMessageToChatUI_new_messages s responseData.response Sender.assistant later hc
  unfold submitChatMessage_resume
  dsimp only
  split <;> split <;> simp [h1]

/-- When the `/chat` call fails, the fixed error entry is appended to the transcript
that is current at that moment. -/
theorem submitChatMessage_resume_error_messages (s : AppState) (message later : String)
    (hc : s.elements.chatMessagesContainer = true) :
    (submitChatMessage_resume s (.error message) later).currentChatSessionMessages
      = s.currentChatSessionMessages ++ [⟨chatInternalErrorText, Sender.assistant, later⟩] := by
  have h1 := addMessageToChatUI_new_messages
    (showAlert s (AlertText.chatFailed message) AlertType.error)
    chatInternalErrorText Sender.assistant later (by simp [hc])
  unfold submitChatMessage_resume submitChatMessage_catch
  dsimp only
  split <;> simp [h1]

/-- C12: for an accepted submission (document `d` selected, message with a character
that is not white space) on a page with the message container, when the `/chat` call
succeeds with reply `r` and no other handler runs in between, the final transcript is
the initial transcript followed by the user entry with the submitted message and the
assistant entry with `r`; the earlier entries are a prefix of it, unchanged. -/
theorem submitChatMessage_success_transcript (s : AppState) (d messageContent now r later : String)
    (next_action : Option String)
    (hsel : s.selectedChatStructuredDocumentId = some d) (hd : d ≠ "")
    (hmsg : ∃ c ∈ messageContent.toList, isJsWhiteSpace c = false)
    (hc : s.elements.chatMessagesContainer = true) :
    (submitChatMessage s messageContent now (.ok (some ⟨r, next_action⟩)) later).currentChatSessionMessages
      = s.currentChatSessionMessages
          ++ [⟨messageContent, Sender.user, now⟩, ⟨r, Sender.assistant, later⟩] := by
  have ht : truthy s.selectedChatStructuredDocumentId = true := by simp [hsel, truthy, hd]
  have hb := jsTrim_of_not_blank messageContent hmsg
  unfold submitChatMessage
  simp only [ht, hb, Bool.not_true, Bool.or_false, Bool.false_eq_true, if_false]
  rw [submitChatMessage_resume_ok_messages _ _ _ (by simp [hc]),
    submitChatMessage_start_accepted_messages s messageContent now ht hb hc]
  simp

/-- Witness of C12: one question about document `A` on the initial page. -/
theorem submitChatMessage_success_transcript_witness :
    (submitChatMessage { initialState with selectedChatStructuredDocumentId := some "A" }
        "total?" "t1" (.ok (some ⟨"42", none⟩)) "t2").currentChatSessionMessages
      = [] ++ [⟨"total?", Sender.user, "t1"⟩, ⟨"42", Sender.assistant, "t2"⟩] :=
  submitChatMessage_success_transcript
    { initialState with selectedChatStructuredDocumentId := some "A" }
    "A" "total?" "t1" "42" "t2" none rfl (by decide) ⟨'t', by decide, by decide⟩ rfl

/-- C13: for an accepted submission on a page with the message container, the chat
input and the send button, when the `/chat` call fails and no other handler runs in
between, the transcript gains the user entry and exactly one assistant entry with the
fixed internal-error text, and afterwards the chat input and the send button are
enabled. -/
theorem submitChatMessage_failure_turn (s : AppState) (d messageContent now message later : String)
    (hsel : s.selectedChatStructuredDocumentId = some d) (hd : d ≠ "")
    (hmsg : ∃ c ∈ messageContent.toList, isJsWhiteSpace c = false)
    (hc : s.elements.chatMessagesContainer = true)
    (hi : s.elements.chatInput = true) (hb : s.elements.chatSendBtn = true) :
    (submitChatMessage s messageContent now (.error message) later).currentChatSessionMessages
      = s.currentChatSessionMessages
          ++ [⟨messageContent, Sender.user, now⟩,
              ⟨chatInternalErrorText, Sender.assistant, later⟩] ∧
    (submitChatMessage s messageContent now (.error message) later).chatInputDisabled = false ∧
    (submitChatMessage s messageContent now (.error message) later).chatSendBtn.disabled
      = false := by
  have ht : truthy s.selectedChatStructuredDocumentId = true := by simp [hsel, truthy, hd]
  have hblank := jsTrim_of_not_blank messageContent hmsg
  unfold submitChatMessage
  simp only [ht, hblank, Bool.not_true, Bool.or_false, Bool.false_eq_true, if_false]
  refine ⟨?_, ?_, ?_⟩
  · rw [submitChatMessage_resume_error_messages _ _ _ (by simp [hc]),
      submitChatMessage_start_accepted_messages s messageContent now ht hblank hc]
    simp
  · unfold submitChatMessage_resume submitChatMessage_catch
    simp [hi]
  · unfold submitChatMessage_resume submitChatMessage_catch
    simp [hi, hb, setButtonLoading_chatSendBtn, Button.setLoading]

/-- Witness of C13: one question about document `A` on the initial page, the call
fails. -/
theorem submitChatMessage_failure_turn_witness :
    (submitChatMessage { initialState with selectedChatStructuredDocumentId := some "A" }
        "total?" "t1" (.error "HTTP error 500") "t2").currentChatSessionMessages
      = [] ++ [⟨"total?", Sender.user, "t1"⟩, ⟨chatInternalErrorText, Sender.assistant, "t2"⟩] ∧
    (submitChatMessage { initialState with selectedChatStructuredDocumentId := some "A" }
        "total?" "t1" (.error "HTTP error 500") "t2").chatInputDisabled = false ∧
    (submitChatMessage { initialState with selectedChatStructuredDocumentId := some "A" }
        "total?" "t1" (.error "HTTP error 500") "t2").chatSendBtn.disabled = false :=
  submitChatMessage_failure_turn
    { initialState with selectedChatStructuredDocumentId := some "A" }
    "A" "total?" "t1" "HTTP error 500" "t2" rfl (by decide) ⟨'t', by decide, by decide⟩
    rfl rfl rfl

@[simp]
theorem submitChatMessage_start_selected (s : AppState) (messageContent now : String) :
    (submitChatMessage_start s messageContent now).selectedChatStructuredDocumentId
      = s.selectedChatStructuredDocumentId := by
  unfold submitChatMessage_start
  split
  · simp
  · split
    · simp
    · simp only [apiCall_start_selectedChatStructuredDocumentId]
      split <;> simp <;> split <;> simp

@[simp]
theorem submitChatMessage_resume_selected (s : AppState)
    (result : Except String (Option ChatResponse)) (later : String) :
    (submitChatMessage_resume s result later).selectedChatStructuredDocumentId
      = s.selectedChatStructuredDocumentId := by
  unfold submitChatMessage_resume submitChatMessage_catch
  rcases result with message | _ | responseData
  · dsimp only; split <;> simp
  · dsimp only; split <;> simp
  · dsimp only; split <;> simp <;> split <;> simp

@[simp]
theorem activateChatWithDocument_elements (s : AppState) (docId docFilename docType : String) :
    (activateChatWithDocument s docId docFilename docType).elements = s.elements := by
  unfold activateChatWithDocument
  simp only [navigateToSection_elements]
  split <;> split <;> split <;> simp

/-- Choosing a document that is not the selected one empties the transcript and
selects it (lines 447-449). -/
theorem activateChatWithDocument_change (s : AppState) (docId docFilename docType : String)
    (h : s.selectedChatStructuredDocumentId ≠ some docId) :
    (activateChatWithDocument s docId docFilename docType).currentChatSessionMessages = [] ∧
    (activateChatWithDocument s docId docFilename docType).selectedChatStructuredDocumentId
      = some docId := by
  unfold activateChatWithDocument
  simp only [h, ne_eq, not_false_eq_true, if_true]
  refine ⟨?_, ?_⟩ <;> simp <;> split <;> split <;> simp

/-- C11, the claim as worded fails: on the run `lateReplyRun` the session targets
document `B` when the answer to the question about `A` arrives, and the answer is
appended to its transcript. -/
theorem late_reply_lands_in_other_session :
    lateReplyRun.selectedChatStructuredDocumentId = some "B" ∧
    lateReplyRun.currentChatSessionMessages = [⟨"42", Sender.assistant, "t2"⟩] := by
  decide

/-- C11, amended: when document `A` is selected, a message is submitted, and then,
while the `/chat` call is pending, `activateChatWithDocument` selects another document
`B`, the reply (on success) or the fixed error entry (on failure) that arrives later is
appended unconditionally to the transcript that is current at that moment: the
session targets `B` and its transcript holds exactly that late entry. -/
theorem late_entry_is_appended_to_current_transcript (s : AppState)
    (A B messageContent now docFilename docType later : String)
    (hsel : s.selectedChatStructuredDocumentId = some A) (hAB : B ≠ A)
    (hc : s.elements.chatMessagesContainer = true) :
    (∀ responseData : ChatResponse,
      (submitChatMessage_resume
          (activateChatWithDocument (submitChatMessage_start s messageContent now)
            B docFilename docType)
          (.ok (some responseData)) later).currentChatSessionMessages
        = [⟨responseData.response, Sender.assistant, later⟩] ∧
      (submitChatMessage_resume
          (activateChatWithDocument (submitChatMessage_start s messageContent now)
            B docFilename docType)
          (.ok (some responseData)) later).selectedChatStructuredDocumentId = some B) ∧
    (∀ message : String,
      (submitChatMessage_resume
          (activateChatWithDocument (submitChatMessage_start s messageContent now)
            B docFilename docType)
          (.error message) later).currentChatSessionMessages
        = [⟨chatInternalErrorText, Sender.assistant, later⟩] ∧
      (submitChatMessage_resume
          (activateChatWithDocument (submitChatMessage_start s messageContent now)
            B docFilename docType)
          (.error message) later).selectedChatStructuredDocumentId = some B) := by
  have hne : (submitChatMessage_start s messageContent now).selectedChatStructuredDocumentId
      ≠ some B := by
    rw [submitChatMessage_start_selected, hsel]
    intro h
    exact hAB (Option.some.inj h).symm
  have hact := activateChatWithDocument_change (submitChatMessage_start s messageContent now)
    B docFilename docType hne
  have hel : (activateChatWithDocument (submitChatMessage_start s messageContent now)
      B docFilename docType).elements.chatMessagesContainer = true := by simp [hc]
  constructor
  · intro responseData
    rw [submitChatMessage_resume_ok_messages _ _ _ hel, submitChatMessage_resume_selected,
      hact.1, hact.2]
    exact ⟨rfl, rfl⟩
  · intro message
    rw [submitChatMessage_resume_error_messages _ _ _ hel, submitChatMessage_resume_selected,
      hact.1, hact.2]
    exact ⟨rfl, rfl⟩

/-- Witness of C11 amended: on the initial page with `A` selected, a question is sent,
`B` is chosen, and the call fails. -/
theorem late_entry_is_appended_to_current_transcript_witness :
    (submitChatMessage_resume
        (activateChatWithDocument
          (submitChatMessage_start
            { initialState with selectedChatStructuredDocumentId := some "A" } "total?" "t1")
          "B" "b.csv" "structured")
        (.error "HTTP error 500") "t2").currentChatSessionMessages
      = [⟨chatInternalErrorText, Sender.assistant, "t2"⟩] :=
  ((late_entry_is_appended_to_current_transcript
      { initialState with selectedChatStructuredDocumentId := some "A" }
      "A" "B" "total?" "t1" "b.csv" "structured" "t2" rfl (by decide) rfl).2
      "HTTP error 500").1

/-! ## Error messages of the API client -/

/-- A string that starts with a non-empty literal is not empty. -/
theorem append_ne_empty (a b : String) (ha : a ≠ "") : a ++ b ≠ "" := by
  intro h
  have hl := congrArg String.length h
  rw [String.length_append] at hl
  have ha0 : a.length ≠ 0 := by
    intro h0
    apply ha
    have hd : a.data = [] := List.length_eq_zero.mp h0
    exact congrArg String.mk hd
  have : a.length + b.length = 0 := hl
  omega

/-- The outer `catch` passes a non-empty message on unchanged. -/
theorem apiCall_catch_of_ne_empty {α : Type} (message : String) (h : message ≠ "") :
    (apiCall_catch message : Except String (Option α)) = .error message := by
  unfold apiCall_catch
  simp [h]

/-- For a response that is not `ok`, `apiCall` throws the message of lines 163-171,
passed through the outer `catch`. -/
theorem apiCall_settle_not_ok {α : Type} (response : HttpResponse α)
    (hok : response.ok = false) :
    apiCall_settle (.resolved response) = apiCall_catch (apiCall_errorMessage response) := by
  unfold apiCall_settle
  simp [hok]

/-- C14, the claim as worded fails: a response with status 500 whose JSON body carries
the `detail` field with the empty string makes `apiCall` fail with the synthesized
message `HTTP error 500`, not with the `detail` field. -/
theorem apiCall_empty_detail_is_replaced :
    (apiCall_settle (FetchOutcome.resolved
        ⟨500, "Internal Server Error", none, ParsedBody.value () (some "")⟩)
      : Except String (Option Unit)) = Except.error "HTTP error 500" ∧
    (apiCall_settle (FetchOutcome.resolved
        ⟨500, "Internal Server Error", none, ParsedBody.value () (some "")⟩)
      : Except String (Option Unit)) ≠ Except.error "" := by
  have h : (apiCall_settle (FetchOutcome.resolved
        ⟨500, "Internal Server Error", none, ParsedBody.value () (some "")⟩)
      : Except String (Option Unit)) = Except.error "HTTP error 500" := rfl
  refine ⟨h, ?_⟩
  rw [h]
  intro h2
  injection h2 with h3
  exact absurd h3 (by decide)

/-- C14, amended: for a response that is not `ok` and whose body is not the JSON value
`null`, `apiCall` fails with the `detail` field of the body when the body parses as
JSON and carries a non-empty one; with `HTTP error <status>` when the body parses and
`detail` is absent or empty; with `Server error: <status> <statusText>.` when the body
does not parse. The two synthesized messages contain the status code. -/
theorem apiCall_error_message {α : Type} (response : HttpResponse α)
    (hok : response.ok = false) :
    (∀ (v : α) (d : String), response.body = .value v (some d) → d ≠ "" →
      apiCall_settle (.resolved response) = .error d) ∧
    (∀ (v : α) (d : Option String), response.body = .value v d → truthy d = false →
      apiCall_settle (.resolved response) = .error ("HTTP error " ++ toString response.status) ∧
      (toString response.status).data <:+: ("HTTP error " ++ toString response.status).data) ∧
    (∀ e : String, response.body = .unparseable e →
      apiCall_settle (.resolved response)
        = .error ("Server error: " ++ toString response.status ++ " "
            ++ response.statusText ++ ".") ∧
      (toString response.status).data <:+:
        ("Server error: " ++ toString response.status ++ " " ++ response.statusText ++ ".").data) := by
  rw [apiCall_settle_not_ok response hok]
  refine ⟨?_, ?_, ?_⟩
  · intro v d hbody hd
    have hm : apiCall_errorMessage response = d := by
      unfold apiCall_errorMessage
      rw [hbody]
      simp [truthy, hd]
    rw [hm]
    exact apiCall_catch_of_ne_empty d hd
  · intro v d hbody hd
    have hm : apiCall_errorMessage response = "HTTP error " ++ toString response.status := by
      unfold apiCall_errorMessage
      rw [hbody]
      simp [hd]
    rw [hm]
    refine ⟨apiCall_catch_of_ne_empty _ (append_ne_empty _ _ (by decide)), ?_⟩
    rw [String.data_append]
    exact (List.suffix_append _ _).isInfix
  · intro e hbody
    have hne : "Server error: " ++ toString response.status ++ " " ++ response.statusText ++ "."
        ≠ "" := by
      rw [String.append_assoc, String.append_assoc, String.append_assoc]
      exact append_ne_empty _ _ (by decide)
    have hm : apiCall_errorMessage response
        = "Server error: " ++ toString response.status ++ " " ++ response.statusText ++ "." := by
      unfold apiCall_errorMessage
      rw [hbody]
      simp [truthy, hne]
    rw [hm]
    refine ⟨apiCall_catch_of_ne_empty _ hne, ?_⟩
    simp only [String.data_append]
    exact ⟨"Server error: ".data, " ".data ++ response.statusText.data ++ ".".data, by simp⟩

/-- Witness of C14 amended: a 404 response whose body carries a `detail`. -/
theorem apiCall_error_message_witness :
    (apiCall_settle (FetchOutcome.resolved
        ⟨404, "Not Found", none, ParsedBody.value () (some "Dokumen tidak ditemukan")⟩)
      : Except String (Option Unit)) = Except.error "Dokumen tidak ditemukan" :=
  (apiCall_error_message
      ⟨404, "Not Found", none, ParsedBody.value () (some "Dokumen tidak ditemukan")⟩ rfl).1
    () "Dokumen tidak ditemukan" rfl (by decide)

/-- A response that is not `ok` and whose body is the JSON value `null`: reading
`errorData.detail` raises a `TypeError`, and `apiCall` fails with the text of that
error, which does not come from the status. -/
theorem apiCall_null_error_body {α : Type} (response : HttpResponse α)
    (hok : response.ok = false) (hbody : response.body = .null) :
    apiCall_settle (.resolved response) = .error typeErrorMessage := by
  rw [apiCall_settle_not_ok response hok]
  have hm : apiCall_errorMessage response = typeErrorMessage := by
    unfold apiCall_errorMessage
    rw [hbody]
  rw [hm]
  exact apiCall_catch_of_ne_empty _ (by decide)

/-! ## Chat list refresh -/

/-- C15: on a page with the chat sidebar list, after `loadStructuredDocumentsForChat`
succeeds with the fetched list `L` while document `d` (a non-empty identifier) is
selected: when no document of `L` has the identifier `d`, no document is selected and
the transcript is empty; when some document of `L` has it, the selected document and
the transcript are as before. -/
theorem loadStructuredDocumentsForChat_revalidates (s : AppState) (d : String) (L : List Doc)
    (hsel : s.selectedChatStructuredDocumentId = some d) (hd : d ≠ "")
    (hl : s.elements.chatStructuredDocumentList = true) :
    ((∀ doc ∈ L, doc.id ≠ d) →
      (loadStructuredDocumentsForChat s (.ok (some L))).selectedChatStructuredDocumentId = none ∧
      (loadStructuredDocumentsForChat s (.ok (some L))).currentChatSessionMessages = []) ∧
    ((∃ doc ∈ L, doc.id = d) →
      (loadStructuredDocumentsForChat s (.ok (some L))).selectedChatStructuredDocumentId
        = some d ∧
      (loadStructuredDocumentsForChat s (.ok (some L))).currentChatSessionMessages
        = s.currentChatSessionMessages) := by
  unfold loadStructuredDocumentsForChat loadStructuredDocumentsForChat_resume
    renderChatDocumentSelectionList
  simp only [loadStructuredDocumentsForChat_start_elements, hl, if_true, Option.getD_some]
  simp only [loadStructuredDocumentsForChat_start_selectedChatStructuredDocumentId, hsel]
  have ht : truthy (some d) = true := by simp [truthy, hd]
  simp only [ht, if_true]
  constructor
  · intro hnone
    have hno : ¬ ∃ x ∈ L, x.id = d := by
      rintro ⟨x, hx, hxd⟩
      exact hnone x hx hxd
    simp [hno]
  · intro hex
    simp [hex, hsel]

/-- Witness of C15: `A` is selected with one message and the list no longer has it. -/
theorem loadStructuredDocumentsForChat_revalidates_witness :
    (loadStructuredDocumentsForChat
        { initialState with selectedChatStructuredDocumentId := some "A",
                            currentChatSessionMessages := [⟨"hi", Sender.user, "t0"⟩] }
        (.ok (some [⟨"B", "b.csv", "2024-01-02", 3⟩]))).selectedChatStructuredDocumentId = none ∧
    (loadStructuredDocumentsForChat
        { initialState with selectedChatStructuredDocumentId := some "A",
                            currentChatSessionMessages := [⟨"hi", Sender.user, "t0"⟩] }
        (.ok (some [⟨"B", "b.csv", "2024-01-02", 3⟩]))).currentChatSessionMessages = [] :=
  (loadStructuredDocumentsForChat_revalidates
      { initialState with selectedChatStructuredDocumentId := some "A",
                          currentChatSessionMessages := [⟨"hi", Sender.user, "t0"⟩] }
      "A" [⟨"B", "b.csv", "2024-01-02", 3⟩] rfl (by decide) rfl).1 (by decide)

/-! ## Navigation -/

@[simp]
theorem showLoading_activeSections (s : AppState) :
    (showLoading s).activeSections = s.activeSections := by unfold showLoading; split <;> rfl

@[simp]
theorem showLoading_activeNavLinks (s : AppState) :
    (showLoading s).activeNavLinks = s.activeNavLinks := by unfold showLoading; split <;> rfl

@[simp]
theorem hideLoading_activeSections (s : AppState) :
    (hideLoading s).activeSections = s.activeSections := by unfold hideLoading; split <;> rfl

@[simp]
theorem hideLoading_activeNavLinks (s : AppState) :
    (hideLoading s).activeNavLinks = s.activeNavLinks := by unfold hideLoading; split <;> rfl

/-- The load routine started by `navigateToSection` does not touch the panel classes. -/
theorem navigateToSection_activeSections (s : AppState) (sectionName : SectionName) :
    (navigateToSection s sectionName).activeSections
      = (navigateToSection_classes s sectionName).activeSections := by
  cases sectionName <;>
    simp [navigateToSection, loadAllStructuredDocuments_start,
      loadStructuredDocumentsForChat_start, loadAllChatHistory_start, apiCall_start]

/-- The load routine started by `navigateToSection` does not touch the link classes. -/
theorem navigateToSection_activeNavLinks (s : AppState) (sectionName : SectionName) :
    (navigateToSection s sectionName).activeNavLinks
      = (navigateToSection_classes s sectionName).activeNavLinks := by
  cases sectionName <;>
    simp [navigateToSection, loadAllStructuredDocuments_start,
      loadStructuredDocumentsForChat_start, loadAllChatHistory_start, apiCall_start]

/-- C16: on a page that has the five panels and the five links, after
`navigateToSection` with any of the five names, a panel is active exactly when it is
the requested one and a link is active exactly when it is the requested one, whatever
was active before. -/
theorem navigateToSection_exactly_one_active (s : AppState) (sectionName : SectionName)
    (hS : ∀ x, s.elements.contentSections x = true) (hN : ∀ x, s.elements.navLinks x = true)
    (x : SectionName) :
    ((navigateToSection s sectionName).activeSections x = true ↔ x = sectionName) ∧
    ((navigateToSection s sectionName).activeNavLinks x = true ↔ x = sectionName) := by
  rw [navigateToSection_activeSections, navigateToSection_activeNavLinks]
  unfold navigateToSection_classes
  simp [hS, hN]

/-- Witness of C16: the chat panel is requested while the upload panel and the history
link are active. -/
theorem navigateToSection_exactly_one_active_witness :
    ((navigateToSection
        { initialState with
            activeSections := fun y => decide (y = SectionName.uploadStructured),
            activeNavLinks := fun y => decide (y = SectionName.history) }
        SectionName.chat).activeSections SectionName.uploadStructured = true
      ↔ SectionName.uploadStructured = SectionName.chat) ∧
    ((navigateToSection
        { initialState with
            activeSections := fun y => decide (y = SectionName.uploadStructured),
            activeNavLinks := fun y => decide (y = SectionName.history) }
        SectionName.chat).activeNavLinks SectionName.uploadStructured = true
      ↔ SectionName.uploadStructured = SectionName.chat) :=
  navigateToSection_exactly_one_active
    { initialState with
        activeSections := fun y => decide (y = SectionName.uploadStructured),
        activeNavLinks := fun y => decide (y = SectionName.history) }
    SectionName.chat (fun _ => rfl) (fun _ => rfl) SectionName.uploadStructured

/-! ## History labels -/

/-- Appending to the same text gives the same result only for the same suffix. -/
theorem append_left_cancel_iff (a b c : String) : a ++ b = a ++ c ↔ b = c := by
  constructor
  · intro h
    have hd := congrArg String.data h
    rw [String.data_append, String.data_append] at hd
    exact String.ext (List.append_cancel_left hd)
  · intro h
    rw [h]

/-- The label of an entry with a document identifier and the turn number 1. -/
theorem docContextInfo_turn_one (item : HistoryItem)
    (hid : truthy item.excel_document_id = true) (ht : item.chat_turn = some 1) :
    docContextInfo item
      = "Dok. Data ID: " ++ sanitizeText item.excel_document_id ++ " (Pencarian Data)" := by
  unfold docContextInfo
  simp [hid, ht, truthyNumber]

/-- The label of an entry with a document identifier and a turn number above 1. -/
theorem docContextInfo_turn_above_one (item : HistoryItem) (n : Int)
    (hid : truthy item.excel_document_id = true) (ht : item.chat_turn = some n) (hn : n > 1) :
    docContextInfo item
      = "Dok. Data ID: " ++ sanitizeText item.excel_document_id ++ " (Pencarian Internet)" := by
  have h1 : n ≠ 1 := by omega
  have h0 : n ≠ 0 := by omega
  unfold docContextInfo
  simp [hid, ht, truthyNumber, h1, h0, hn]

/-- The label of an entry with a document identifier and no turn number, or a turn
number below 1. -/
theorem docContextInfo_no_marker (item : HistoryItem)
    (hid : truthy item.excel_document_id = true)
    (ht : item.chat_turn = none ∨ ∃ n, item.chat_turn = some n ∧ n < 1) :
    docContextInfo item = "Dok. Data ID: " ++ sanitizeText item.excel_document_id := by
  unfold docContextInfo
  rcases ht with ht | ⟨n, ht, hn⟩
  · simp [hid, ht, truthyNumber]
  · have h1 : n ≠ 1 := by omega
    have hgt : ¬ 1 < n := by omega
    simp [hid, ht, h1, hgt]

/-- The history container shows, for each entry, the label `docContextInfo`. -/
theorem renderChatHistoryList_context (s : AppState) (historyItems : List HistoryItem)
    (hc : s.elements.historyContainer = true) :
    (renderChatHistoryList s historyItems).historyContainer.map (fun node => node.context)
      = historyItems.map docContextInfo := by
  unfold renderChatHistoryList
  simp [hc]

/-- C17: the context label that `renderChatHistoryList` computes for an entry. For an
entry with a (non-empty) document identifier the label is `Dok. Data ID: <id>` followed
by ` (Pencarian Data)` exactly when `chat_turn` is 1, by ` (Pencarian Internet)` exactly
when `chat_turn` is greater than 1, and by nothing when `chat_turn` is absent or 0. For
an entry without a document identifier the label is `Konteks Umum` whatever its
`chat_turn`. -/
theorem docContextInfo_turn_marker (item : HistoryItem) :
    (truthy item.excel_document_id = true →
      (docContextInfo item
          = "Dok. Data ID: " ++ sanitizeText item.excel_document_id ++ " (Pencarian Data)"
        ↔ item.chat_turn = some 1) ∧
      (docContextInfo item
          = "Dok. Data ID: " ++ sanitizeText item.excel_document_id ++ " (Pencarian Internet)"
        ↔ ∃ n, item.chat_turn = some n ∧ n > 1) ∧
      ((item.chat_turn = none ∨ item.chat_turn = some 0) →
        docContextInfo item = "Dok. Data ID: " ++ sanitizeText item.excel_document_id)) ∧
    (truthy item.excel_document_id = false → docContextInfo item = "Konteks Umum") := by
  constructor
  · intro hid
    have hbase : ∀ m : String,
        ("Dok. Data ID: " ++ sanitizeText item.excel_document_id
          = "Dok. Data ID: " ++ sanitizeText item.excel_document_id ++ m) ↔ "" = m := by
      intro m
      conv => lhs; lhs; rw [← String.append_empty ("Dok. Data ID: " ++ sanitizeText item.excel_document_id)]
      exact append_left_cancel_iff _ _ _
    rcases hct : item.chat_turn with _ | n
    · have hlabel := docContextInfo_no_marker item hid (Or.inl hct)
      rw [hlabel]
      refine ⟨?_, ?_, fun _ => rfl⟩
      · rw [hbase]; simp
      · rw [hbase]; simp
    · rcases lt_trichotomy n 1 with hlt | heq | hgt
      · have hlabel := docContextInfo_no_marker item hid (Or.inr ⟨n, hct, hlt⟩)
        rw [hlabel]
        refine ⟨?_, ?_, fun _ => rfl⟩
        · rw [hbase]
          constructor
          · intro h; exact absurd h (by decide)
          · intro h; have := Option.some.inj h; omega
        · rw [hbase]
          constructor
          · intro h; exact absurd h (by decide)
          · rintro ⟨m, hm, hm1⟩; have := Option.some.inj hm; omega
      · subst heq
        have hlabel := docContextInfo_turn_one item hid hct
        rw [hlabel]
        refine ⟨⟨fun _ => rfl, fun _ => rfl⟩, ?_, ?_⟩
        · rw [append_left_cancel_iff]
          constructor
          · intro h; exact absurd h (by decide)
          · rintro ⟨m, hm, hm1⟩; have := Option.some.inj hm; omega
        · rintro (h | h)
          · exact Option.noConfusion h
          · have := Option.some.inj h; omega
      · have hlabel := docContextInfo_turn_above_one item n hid hct hgt
        rw [hlabel]
        refine ⟨?_, ⟨fun _ => ⟨n, rfl, hgt⟩, fun _ => rfl⟩, ?_⟩
        · rw [append_left_cancel_iff]
          constructor
          · intro h; exact absurd h (by decide)
          · intro h; have := Option.some.inj h; omega
        · rintro (h | h)
          · exact Option.noConfusion h
          · have := Option.some.inj h; omega
  · intro hid
    unfold docContextInfo
    simp [hid]

/-- Witness of C17: two entries of document `7`, with the turn numbers 1 and 2. -/
theorem docContextInfo_turn_marker_witness :
    docContextInfo ⟨"q1", "a1", "t1", some "7", some 1⟩ = "Dok. Data ID: 7 (Pencarian Data)" ∧
    docContextInfo ⟨"q2", "a2", "t2", some "7", some 2⟩
      = "Dok. Data ID: 7 (Pencarian Internet)" :=
  ⟨((docContextInfo_turn_marker ⟨"q1", "a1", "t1", some "7", some 1⟩).1 rfl).1.mpr rfl,
   ((docContextInfo_turn_marker ⟨"q2", "a2", "t2", some "7", some 2⟩).1 rfl).2.1.mpr
      ⟨2, rfl, by decide⟩⟩

end BackupGroq
